import Mathlib

/-!
Shallow embedding of the Andor spectrometer controller
(`src/qdlutils/hardware/spectrometers/andor_spectrometer.py`, class
`AndorSpectrometerController`): the connection state machine (`open`,
`close`, `stop`), the configuration reconciler (`configure` together with
`update_config_dict_from_current_values`) and the derived metric
`clock_rate`.

The vendor adapter (`qdlutils.datagenerators.spectrometers.andor`) is not
part of the sources; its connect/disconnect behaviour and its per-field
getters/setters are modelled from the spec (definitions marked
`Modelled from the spec:`).  Python floats are modelled as rationals,
`np.nan` sentinels as `Option.none`, dictionaries as insertion-ordered
association lists, and in-place mutation as explicit state passing.
-/

namespace AndorSpectrometer

set_option maxRecDepth 100000

/-- Python scalar values that flow through the configuration dictionaries. -/
inductive PyVal where
  | none
  | bool (b : Bool)
  | int (n : Int)
  | rat (q : ℚ)
  | str (s : String)
deriving DecidableEq, Repr

/-- Python dictionaries `Dict[str, Any]` as insertion-ordered association lists. -/
abbrev ConfigDict := List (String × PyVal)

/-- Dictionary lookup, `d.get(k, None)` / `d[k]`. -/
def dget : ConfigDict → String → Option PyVal
  | [], _ => Option.none
  | (k0, v0) :: rest, k => if k0 = k then some v0 else dget rest k

/-- Dictionary assignment `d[k] = v`: replace in place if present, append otherwise. -/
def dset : ConfigDict → String → PyVal → ConfigDict
  | [], k, v => [(k, v)]
  | (k0, v0) :: rest, k, v =>
    if k0 = k then (k, v) :: rest else (k0, v0) :: dset rest k v

/-- Dictionary merge `d.update(e)`. -/
def dupdate (d e : ConfigDict) : ConfigDict :=
  e.foldl (fun acc p => dset acc p.1 p.2) d

/-- The test `d.get(key, None) is None`: true for a missing key and for a stored `None`. -/
def pyIsNone : Option PyVal → Bool
  | Option.none => true
  | some PyVal.none => true
  | some _ => false

/-! ### Python number/string conversions used by the controller -/

def digitChar (d : Nat) : Char := Char.ofNat (48 + d)

def natStrAux : Nat → Nat → List Char
  | 0, _ => []
  | f + 1, n => if n < 10 then [digitChar n] else natStrAux f (n / 10) ++ [digitChar (n % 10)]

/-- Decimal rendering of a natural number. -/
def natStr (n : Nat) : String := ⟨natStrAux (n + 1) n⟩

/-- Python `str` of an integer. -/
def intStr (n : Int) : String :=
  if n < 0 then "-" ++ natStr n.natAbs else natStr n.natAbs

def digitVal (c : Char) : Option Nat :=
  if 48 ≤ c.toNat ∧ c.toNat ≤ 57 then some (c.toNat - 48) else Option.none

/-- Value of a digit string, tolerating the empty string (worth `0`). -/
def digitsVal (l : List Char) : Option Nat :=
  l.foldl (fun acc c => acc.bind fun a => (digitVal c).map fun d => a * 10 + d) (some 0)

/-- Digits of `int(s)`: at least one digit, digits only. -/
def parseNatChars (l : List Char) : Option Nat :=
  if l = [] then Option.none else digitsVal l

/-- Python `int(s)` on a trimmed literal. -/
def parseIntChars : List Char → Option Int
  | '-' :: rest => (parseNatChars rest).map fun n => -(n : Int)
  | '+' :: rest => (parseNatChars rest).map fun n => (n : Int)
  | l => (parseNatChars l).map fun n => (n : Int)

def splitOnChar (c : Char) : List Char → List (List Char)
  | [] => [[]]
  | a :: rest =>
    let r := splitOnChar c rest
    if a = c then [] :: r
    else
      match r with
      | [] => [[a]]
      | h :: t => (a :: h) :: t

/-- Unsigned part of `float(s)`: plain digits, a decimal form `a.b`, or the
exact `num/den` fallback form produced by `pyFloatStr` for rationals without
a finite decimal rendering (a real Python float always has one). -/
def parseUFracChars (l : List Char) : Option ℚ :=
  if l.contains '/' then
    match splitOnChar '/' l with
    | [a, b] =>
      (parseNatChars a).bind fun x =>
        (parseNatChars b).bind fun y =>
          if y = 0 then Option.none else some ((x : ℚ) / (y : ℚ))
    | _ => Option.none
  else
    match splitOnChar '.' l with
    | [a] => (parseNatChars a).map fun n => (n : ℚ)
    | [a, b] =>
      if a = [] ∧ b = [] then Option.none
      else
        (digitsVal a).bind fun x =>
          (digitsVal b).bind fun y =>
            some ((x : ℚ) + (y : ℚ) / ((10 : ℚ) ^ b.length))
    | _ => Option.none

/-- Python `float(s)` on the strings this controller handles. -/
def parseFloatStr (s : String) : Option ℚ :=
  match s.data with
  | '-' :: rest => (parseUFracChars rest).map Neg.neg
  | '+' :: rest => parseUFracChars rest
  | l => parseUFracChars l

/-- Model of Python `str` on a float: integral values print as `n.0`; other
rationals fall back to an exact `num/den` rendering (only a modelling device;
`parseFloatStr` inverts both forms). -/
def pyFloatStr (q : ℚ) : String :=
  if q.den = 1 then intStr q.num ++ ".0" else intStr q.num ++ "/" ++ natStr q.den

/-- Python `str` of a configuration value. -/
def pyStr : PyVal → String
  | PyVal.none => "None"
  | PyVal.bool b => if b then "True" else "False"
  | PyVal.int n => intStr n
  | PyVal.rat q => pyFloatStr q
  | PyVal.str s => s

/-- Python exceptions the controller code can raise. -/
inductive PyExn where
  | valueError (msg : String)
  | typeError (msg : String)
  | keyError (key : String)
  | indexError (msg : String)
deriving DecidableEq, Repr

def pyTrunc (q : ℚ) : Int := if 0 ≤ q then ⌊q⌋ else -⌊-q⌋

/-- Python `int(value)`. -/
def pyInt : PyVal → Except PyExn Int
  | PyVal.int n => .ok n
  | PyVal.bool b => .ok (if b then 1 else 0)
  | PyVal.rat q => .ok (pyTrunc q)
  | PyVal.str s =>
    match parseIntChars s.data with
    | some n => .ok n
    | Option.none => .error (.valueError ("invalid literal for int() with base 10: " ++ s))
  | PyVal.none => .error (.typeError "int() argument cannot be None")

/-- Python `float(value)`. -/
def pyFloat : PyVal → Except PyExn ℚ
  | PyVal.rat q => .ok q
  | PyVal.int n => .ok (n : ℚ)
  | PyVal.bool b => .ok (if b then 1 else 0)
  | PyVal.str s =>
    match parseFloatStr s with
    | some q => .ok q
    | Option.none => .error (.valueError ("could not convert string to float: " ++ s))
  | PyVal.none => .error (.typeError "float() argument cannot be None")

/-! ### The device adapter and controller state -/

/-- Adapter-facing events, used to state the ordering guarantees. -/
inductive Ev where
  | w (field : String)
  | r (field : String)
  | connect
  | disconnect
  | daqClose
  | daqStopWait
deriving DecidableEq, Repr

def Ev.isWrite : Ev → Bool
  | .w _ => true
  | _ => false

def Ev.isRead : Ev → Bool
  | .r _ => true
  | _ => false

/-- State of the vendor adapter objects: `spectrometer_config` plus the
`spectrometer_daq` attributes the controller touches
(`reach_temperature_before_acquisition`, the temperature wait, and whether
`spectrometer_daq.close()` ran).  Modelled from the spec: the adapter exposes
`connect`/`disconnect`/`isOpen` and per-field getters/setters that store the
written value; `openWorks`/`closeWorks` encode whether the next
`connect()`/`disconnect()` will succeed. -/
structure Dev where
  is_open : Bool
  openWorks : Bool
  closeWorks : Bool
  ccd_device_index : Int
  spg_device_index : Int
  current_grating : PyVal
  center_wavelength : PyVal
  pixel_offset : PyVal
  wavelength_offset : PyVal
  input_port : PyVal
  output_port : PyVal
  read_mode : PyVal
  acquisition_mode : PyVal
  trigger_mode : PyVal
  exposure_time : PyVal
  number_of_accumulations : PyVal
  accumulation_cycle_time : PyVal
  number_of_kinetics : PyVal
  kinetic_cycle_time : PyVal
  baseline_clamp : PyVal
  remove_cosmic_rays : PyVal
  keep_clean_on_external_trigger : PyVal
  track_center_row : PyVal
  track_height : PyVal
  vertical_shift_speed : PyVal
  ad_channel : Int
  output_amplifier : Int
  horizontal_shift_speed : ℚ
  pre_amp_gain : ℚ
  sensor_temperature_set_point : PyVal
  cooler : PyVal
  cooler_persistence_mode : PyVal
  reach_temperature_before_acquisition : PyVal
  waiting_for_temperature : Bool
  daq_closed : Bool
deriving DecidableEq, Repr

/-- Modelled from the spec: `connect()`; afterwards `isOpen` reports whether a
connection exists. -/
def devConnect (d : Dev) : Dev := { d with is_open := d.is_open || d.openWorks }

/-- Modelled from the spec: `disconnect()`; a failed disconnect leaves the
adapter still reporting an open connection. -/
def devDisconnect (d : Dev) : Dev := { d with is_open := d.is_open && !d.closeWorks }

/-- The controller state: the adapter handle plus the Configuration Store
`last_config_dict`. -/
structure Ctrl where
  dev : Dev
  last_config_dict : ConfigDict
deriving DecidableEq, Repr

/-! ### The write phase of `configure` (source lines 308-367) -/

/-- State threaded through the write phase: device so far, write trace so far,
and the raised exception if one occurred (later steps are skipped then). -/
abbrev WState := Dev × List Ev × Option PyExn

/-- `config_dict[key]`: `KeyError` when absent. -/
def reqKey (d : ConfigDict) (k : String) : Except PyExn PyVal :=
  match dget d k with
  | some v => .ok v
  | Option.none => .error (.keyError k)

/-- `int(value) if value is not None else -1` (device index fields). -/
def toDeviceIndex : PyVal → Except PyExn Int
  | PyVal.none => .ok (-1)
  | v => pyInt v

/-- A write step that looks up one dictionary key and applies a per-field
action; an already-raised exception skips the step. -/
def wfield (key : String) (a : PyVal → Dev → Dev × List Ev × Option PyExn)
    (d : ConfigDict) : WState → WState
  | (dev, tr, some e) => (dev, tr, some e)
  | (dev, tr, Option.none) =>
    match reqKey d key with
    | .error e => (dev, tr, some e)
    | .ok v => ((a v dev).1, tr ++ (a v dev).2.1, (a v dev).2.2)

/-- A plain property assignment `spectrometer_config.<field> = value`. -/
def aDirect (ev : String) (set : PyVal → Dev → Dev) (v : PyVal) (dev : Dev) :
    Dev × List Ev × Option PyExn :=
  (set v dev, [Ev.w ev], Option.none)

/-- `int(value) if value is not None else -1` followed by the index write. -/
def aDevIndex (ev : String) (set : Int → Dev → Dev) (v : PyVal) (dev : Dev) :
    Dev × List Ev × Option PyExn :=
  match toDeviceIndex v with
  | .error e => (dev, [], some e)
  | .ok n => (set n dev, [Ev.w ev], Option.none)

/-- `single_track_read_mode_parameters = SingleTrackReadModeParameters(row, height)`:
both dictionary reads happen first, then one compound write. -/
def sTrack (d : ConfigDict) : WState → WState
  | (dev, tr, some e) => (dev, tr, some e)
  | (dev, tr, Option.none) =>
    match reqKey d "single_track_center_row" with
    | .error e => (dev, tr, some e)
    | .ok vc =>
      match reqKey d "single_track_height" with
      | .error e => (dev, tr, some e)
      | .ok vh =>
        ({ dev with track_center_row := vc, track_height := vh },
          tr ++ [Ev.w "single_track_read_mode_parameters"], Option.none)

/-- `if isinstance(vss_value, str): vss_value = float(vss_value)` then the
assignment (a non-string value, including `None`, is written unconverted). -/
def aVss (v : PyVal) (dev : Dev) : Dev × List Ev × Option PyExn :=
  match v with
  | PyVal.str s =>
    match parseFloatStr s with
    | some q =>
      ({ dev with vertical_shift_speed := PyVal.rat q }, [Ev.w "vertical_shift_speed"],
        Option.none)
    | Option.none =>
      (dev, [], some (.valueError ("could not convert string to float: " ++ s)))
  | w => ({ dev with vertical_shift_speed := w }, [Ev.w "vertical_shift_speed"], Option.none)

def pyListGet (l : List (List Char)) (i : Nat) : Except PyExn (List Char) :=
  match l.get? i with
  | some x => .ok x
  | Option.none => .error (.indexError "list index out of range")

def intOfChars (l : List Char) : Except PyExn Int :=
  match parseIntChars l with
  | some n => .ok n
  | Option.none =>
    .error (.valueError ("invalid literal for int() with base 10: " ++ String.mk l))

def floatOfChars (l : List Char) : Except PyExn ℚ :=
  match parseFloatStr (String.mk l) with
  | some q => .ok q
  | Option.none =>
    .error (.valueError ("could not convert string to float: " ++ String.mk l))

/-- The compound horizontal shift speed: `None` is tolerated with no parse
attempt; a string `"(ad, amp, rate)"` is sliced (`[1:-1]`), stripped of
spaces, split on commas, and written as three separate device writes. -/
def aHss (v : PyVal) (dev : Dev) : Dev × List Ev × Option PyExn :=
  match v with
  | PyVal.none => (dev, [], Option.none)
  | PyVal.str s =>
    let parts := splitOnChar ',' (((s.data.drop 1).dropLast).filter (fun c => c ≠ ' '))
    match (pyListGet parts 0).bind intOfChars with
    | .error e => (dev, [], some e)
    | .ok ad =>
      let dev := { dev with ad_channel := ad }
      match (pyListGet parts 1).bind intOfChars with
      | .error e => (dev, [Ev.w "ad_channel"], some e)
      | .ok amp =>
        let dev := { dev with output_amplifier := amp }
        match (pyListGet parts 2).bind floatOfChars with
        | .error e => (dev, [Ev.w "ad_channel", Ev.w "output_amplifier"], some e)
        | .ok q =>
          ({ dev with horizontal_shift_speed := q },
            [Ev.w "ad_channel", Ev.w "output_amplifier", Ev.w "horizontal_shift_speed"],
            Option.none)
  | _ => (dev, [], some (.typeError "horizontal_shift_speed value is not subscriptable"))

/-- Pre-amp gain: `None` skips the write, otherwise `float(value)`. -/
def aPreAmp (v : PyVal) (dev : Dev) : Dev × List Ev × Option PyExn :=
  match v with
  | PyVal.none => (dev, [], Option.none)
  | w =>
    match pyFloat w with
    | .error e => (dev, [], some e)
    | .ok q => ({ dev with pre_amp_gain := q }, [Ev.w "pre_amp_gain"], Option.none)

/-- The fixed sequence of write steps of `configure`, in source order. -/
def writeSteps (d : ConfigDict) : List (WState → WState) :=
  [ wfield "ccd_device_index" (aDevIndex "ccd_device_index"
      (fun n dv => { dv with ccd_device_index := n })) d
  , wfield "spg_device_index" (aDevIndex "spg_device_index"
      (fun n dv => { dv with spg_device_index := n })) d
  , wfield "grating" (aDirect "current_grating"
      (fun v dv => { dv with current_grating := v })) d
  , wfield "center_wavelength" (aDirect "center_wavelength"
      (fun v dv => { dv with center_wavelength := v })) d
  , wfield "pixel_offset" (aDirect "pixel_offset"
      (fun v dv => { dv with pixel_offset := v })) d
  , wfield "wavelength_offset" (aDirect "wavelength_offset"
      (fun v dv => { dv with wavelength_offset := v })) d
  , wfield "input_port" (aDirect "input_port"
      (fun v dv => { dv with input_port := v })) d
  , wfield "output_port" (aDirect "output_port"
      (fun v dv => { dv with output_port := v })) d
  , wfield "read_mode" (aDirect "read_mode"
      (fun v dv => { dv with read_mode := v })) d
  , wfield "acquisition_mode" (aDirect "acquisition_mode"
      (fun v dv => { dv with acquisition_mode := v })) d
  , wfield "trigger_mode" (aDirect "trigger_mode"
      (fun v dv => { dv with trigger_mode := v })) d
  , wfield "exposure_time" (aDirect "exposure_time"
      (fun v dv => { dv with exposure_time := v })) d
  , wfield "number_of_accumulations" (aDirect "number_of_accumulations"
      (fun v dv => { dv with number_of_accumulations := v })) d
  , wfield "accumulation_cycle_time" (aDirect "accumulation_cycle_time"
      (fun v dv => { dv with accumulation_cycle_time := v })) d
  , wfield "number_of_kinetics" (aDirect "number_of_kinetics"
      (fun v dv => { dv with number_of_kinetics := v })) d
  , wfield "kinetic_cycle_time" (aDirect "kinetic_cycle_time"
      (fun v dv => { dv with kinetic_cycle_time := v })) d
  , wfield "baseline_clamp" (aDirect "baseline_clamp"
      (fun v dv => { dv with baseline_clamp := v })) d
  , wfield "cosmic_ray_removal" (aDirect "remove_cosmic_rays"
      (fun v dv => { dv with remove_cosmic_rays := v })) d
  , wfield "keep_clean_on_external_trigger" (aDirect "keep_clean_on_external_trigger"
      (fun v dv => { dv with keep_clean_on_external_trigger := v })) d
  , sTrack d
  , wfield "vertical_shift_speed" aVss d
  , wfield "horizontal_shift_speed" aHss d
  , wfield "pre_amp_gain" aPreAmp d
  , wfield "target_sensor_temperature" (aDirect "sensor_temperature_set_point"
      (fun v dv => { dv with sensor_temperature_set_point := v })) d
  , wfield "reach_temperature_before_acquisition" (aDirect "reach_temperature_before_acquisition"
      (fun v dv => { dv with reach_temperature_before_acquisition := v })) d
  , wfield "cooler" (aDirect "cooler"
      (fun v dv => { dv with cooler := v })) d
  , wfield "cooler_persistence" (aDirect "cooler_persistence_mode"
      (fun v dv => { dv with cooler_persistence_mode := v })) d ]

/-- The write phase of `configure`: apply each field to the adapter in the
fixed source order, stopping at the first raised exception; returns the
(partially) written device, the write trace, and the exception if any. -/
def writePhase (d : ConfigDict) (dev : Dev) : WState :=
  (writeSteps d).foldl (fun st f => f st) (dev, [], Option.none)

/-- `update_config_dict_from_current_values` (source lines 374-419): read every
field back from the adapter and overwrite the Configuration Store entry. -/
def update_config_dict_from_current_values (store : ConfigDict) (dev : Dev) : ConfigDict :=
  let s := dset store "ccd_device_index" (PyVal.str (intStr dev.ccd_device_index))
  let s := dset s "spg_device_index" (PyVal.str (intStr dev.spg_device_index))
  let s := dset s "grating" dev.current_grating
  let s := dset s "center_wavelength" dev.center_wavelength
  let s := dset s "pixel_offset" dev.pixel_offset
  let s := dset s "wavelength_offset" dev.wavelength_offset
  let s := dset s "input_port" dev.input_port
  let s := dset s "output_port" dev.output_port
  let s := dset s "read_mode" dev.read_mode
  let s := dset s "acquisition_mode" dev.acquisition_mode
  let s := dset s "trigger_mode" dev.trigger_mode
  let s := dset s "exposure_time" dev.exposure_time
  let s := dset s "number_of_accumulations" dev.number_of_accumulations
  let s := dset s "accumulation_cycle_time" dev.accumulation_cycle_time
  let s := dset s "number_of_kinetics" dev.number_of_kinetics
  let s := dset s "kinetic_cycle_time" dev.kinetic_cycle_time
  let s := dset s "baseline_clamp" dev.baseline_clamp
  let s := dset s "cosmic_ray_removal" dev.remove_cosmic_rays
  let s := dset s "keep_clean_on_external_trigger" dev.keep_clean_on_external_trigger
  let s := dset s "single_track_center_row" dev.track_center_row
  let s := dset s "single_track_height" dev.track_height
  let s := dset s "vertical_shift_speed" (PyVal.str (pyStr dev.vertical_shift_speed))
  let s := dset s "horizontal_shift_speed" (PyVal.str ("(" ++ intStr dev.ad_channel ++ ", " ++
    intStr dev.output_amplifier ++ ", " ++ pyFloatStr dev.horizontal_shift_speed ++ ")"))
  let s := dset s "pre_amp_gain" (PyVal.str (pyFloatStr dev.pre_amp_gain))
  let s := dset s "target_sensor_temperature" dev.sensor_temperature_set_point
  let s := dset s "reach_temperature_before_acquisition" dev.reach_temperature_before_acquisition
  let s := dset s "cooler" dev.cooler
  dset s "cooler_persistence" dev.cooler_persistence_mode

/-- The adapter reads performed by `update_config_dict_from_current_values`,
in source order (the single-track parameters property is read twice). -/
def readBackTrace : List Ev :=
  [Ev.r "ccd_device_index", Ev.r "spg_device_index", Ev.r "current_grating",
   Ev.r "center_wavelength", Ev.r "pixel_offset", Ev.r "wavelength_offset",
   Ev.r "input_port", Ev.r "output_port", Ev.r "read_mode", Ev.r "acquisition_mode",
   Ev.r "trigger_mode", Ev.r "exposure_time", Ev.r "number_of_accumulations",
   Ev.r "accumulation_cycle_time", Ev.r "number_of_kinetics", Ev.r "kinetic_cycle_time",
   Ev.r "baseline_clamp", Ev.r "remove_cosmic_rays", Ev.r "keep_clean_on_external_trigger",
   Ev.r "single_track_read_mode_parameters", Ev.r "single_track_read_mode_parameters",
   Ev.r "vertical_shift_speed", Ev.r "ad_channel", Ev.r "output_amplifier",
   Ev.r "horizontal_shift_speed", Ev.r "pre_amp_gain", Ev.r "sensor_temperature_set_point",
   Ev.r "reach_temperature_before_acquisition", Ev.r "cooler", Ev.r "cooler_persistence_mode"]

/-- The full fixed write order of the write phase (every optional write
included), used to state the ordering guarantee. -/
def writeOrderFull : List Ev :=
  [Ev.w "ccd_device_index", Ev.w "spg_device_index", Ev.w "current_grating",
   Ev.w "center_wavelength", Ev.w "pixel_offset", Ev.w "wavelength_offset",
   Ev.w "input_port", Ev.w "output_port", Ev.w "read_mode", Ev.w "acquisition_mode",
   Ev.w "trigger_mode", Ev.w "exposure_time", Ev.w "number_of_accumulations",
   Ev.w "accumulation_cycle_time", Ev.w "number_of_kinetics", Ev.w "kinetic_cycle_time",
   Ev.w "baseline_clamp", Ev.w "remove_cosmic_rays", Ev.w "keep_clean_on_external_trigger",
   Ev.w "single_track_read_mode_parameters", Ev.w "vertical_shift_speed",
   Ev.w "ad_channel", Ev.w "output_amplifier", Ev.w "horizontal_shift_speed",
   Ev.w "pre_amp_gain", Ev.w "sensor_temperature_set_point",
   Ev.w "reach_temperature_before_acquisition", Ev.w "cooler", Ev.w "cooler_persistence_mode"]

/-! ### The controller entry points -/

/-- The fill loop of `configure` (source lines 303-306): every key of the
Configuration Store whose value in `config_dict` is absent or `None` is
written into `config_dict` with the store value (in-place mutation, made
explicit by returning the new dictionary). -/
def fillFromStore (store d : ConfigDict) : ConfigDict :=
  store.foldl (fun acc p => if pyIsNone (dget acc p.1) then dset acc p.1 p.2 else acc) d

/-- The non-connection error the controller reports (logs) without raising. -/
inductive CtrlErr where
  | deviceNotOpen
deriving DecidableEq, Repr

/-- Result of a `configure` call: final controller state, final content of the
caller-supplied dictionary object, the reported (logged) error, the raised
exception, and the adapter event trace. -/
structure CfgOutcome where
  state : Ctrl
  cfg : ConfigDict
  err : Option CtrlErr
  raised : Option PyExn
  trace : List Ev
deriving DecidableEq, Repr

/-- Result of an `open` call. -/
structure OpenOutcome where
  state : Ctrl
  ret : Bool
  raised : Option PyExn
  trace : List Ev
deriving DecidableEq, Repr

/-- `close` (source lines 165-185): a no-op returning `True` when already
closed; otherwise `spectrometer_daq.close()` (modelled from the spec: stops
in-flight acquisition resources), adapter `disconnect`, and the return value
recomputed from `is_open`. -/
def closeCtrl (σ : Ctrl) : Ctrl × Bool × List Ev :=
  if σ.dev.is_open = false then (σ, true, [])
  else
    let devA := { σ.dev with daq_closed := true }
    let devB := devDisconnect devA
    ({ σ with dev := devB }, !devB.is_open, [Ev.daqClose, Ev.disconnect])

/-- `stop` (source lines 122-136): cancel the pending temperature wait
(`stop_waiting_to_reach_temperature`, modelled from the spec) and then call
`close`. -/
def stopCtrl (σ : Ctrl) : Ctrl × List Ev :=
  let dev1 := { σ.dev with waiting_for_temperature := false }
  let c := closeCtrl { σ with dev := dev1 }
  (c.1, Ev.daqStopWait :: c.2.2)

/-- The body of `configure` behind the connection handling (source lines
298-369): the not-open check, the fill loop, the write phase and the
read-back pass.  This is exactly the path taken by a `configure` call with
`attempt_connection=False` on a non-empty store. -/
def configureCore (σ : Ctrl) (d : ConfigDict) : CfgOutcome :=
  if σ.dev.is_open = false then
    ⟨{ σ with last_config_dict := dupdate σ.last_config_dict d }, d,
      some CtrlErr.deviceNotOpen, Option.none, []⟩
  else
    let d1 := fillFromStore σ.last_config_dict d
    let w := writePhase d1 σ.dev
    match w.2.2 with
    | some e => ⟨{ σ with dev := w.1 }, d1, Option.none, some e, w.2.1⟩
    | Option.none =>
      ⟨{ dev := w.1, last_config_dict := update_config_dict_from_current_values σ.last_config_dict w.1 },
        d1, Option.none, Option.none, w.2.1 ++ readBackTrace⟩

/-- `open` (source lines 138-163): adapter connect; on success, if the
Configuration Store is non-empty, re-apply it via
`configure(last_config_dict.copy(), attempt_connection=False)` — a call that,
with a non-empty store and no connection attempt, is exactly
`configureCore`.  Returns the connection status; failure is reported through
the boolean, never raised. -/
def openCtrl (σ : Ctrl) : OpenOutcome :=
  let dev1 := devConnect σ.dev
  let σ1 : Ctrl := { σ with dev := dev1 }
  if dev1.is_open = true then
    if σ1.last_config_dict = [] then ⟨σ1, true, Option.none, [Ev.connect]⟩
    else
      let out := configureCore σ1 σ1.last_config_dict
      ⟨out.state, true, out.raised, Ev.connect :: out.trace⟩
  else ⟨σ1, false, Option.none, [Ev.connect]⟩

/-- `configure` (source lines 250-372): open when the store is empty (first
instantiation) or when `attempt_connection` is requested; then the core body;
finally, `close` again when `attempt_connection` was set and the body ran to
completion. -/
def configure (σ : Ctrl) (d : ConfigDict) (attempt : Bool) : CfgOutcome :=
  let conn : OpenOutcome :=
    if σ.last_config_dict = [] then openCtrl σ
    else if attempt then openCtrl σ
    else ⟨σ, true, Option.none, []⟩
  match conn.raised with
  | some e => ⟨conn.state, d, Option.none, some e, conn.trace⟩
  | Option.none =>
    let out := configureCore conn.state d
    match out.err, out.raised with
    | Option.none, Option.none =>
      if attempt then
        ⟨(closeCtrl out.state).1, out.cfg, Option.none, Option.none,
          conn.trace ++ out.trace ++ (closeCtrl out.state).2.2⟩
      else ⟨out.state, out.cfg, Option.none, Option.none, conn.trace ++ out.trace⟩
    | oe, orr => ⟨out.state, out.cfg, oe, orr, conn.trace ++ out.trace⟩

/-- `np.nan`-valued arithmetic on configuration entries (`Option.none` plays
`np.nan`; a non-numeric stored value is likewise treated as undefined). -/
def asNanNum : Option PyVal → Option ℚ
  | some (PyVal.int n) => some (n : ℚ)
  | some (PyVal.rat q) => some q
  | some (PyVal.bool b) => some (if b then 1 else 0)
  | _ => Option.none

def mulNan (a b : Option ℚ) : Option ℚ :=
  match a with
  | some x =>
    match b with
    | some y => some (x * y)
    | Option.none => Option.none
  | Option.none => Option.none

/-- `clock_rate` (source lines 80-97).  The acquisition-mode names
`"ACCUMULATE"`/`"KINETICS"` are the enum member names of the adapter's
`AcquisitionMode` (modelled from the spec's three supported modes).  A
non-positive or nan effective exposure yields `np.nan`, modelled as
`Option.none`. -/
def clock_rate (σ : Ctrl) : Option ℚ :=
  let store := σ.last_config_dict
  let e0 := asNanNum (dget store "exposure_time")
  let mode := dget store "acquisition_mode"
  let e :=
    if mode = some (PyVal.str "ACCUMULATE") then
      mulNan e0 (asNanNum (dget store "number_of_accumulations"))
    else if mode = some (PyVal.str "KINETICS") then
      mulNan (mulNan e0 (asNanNum (dget store "number_of_accumulations")))
        (asNanNum (dget store "number_of_kinetics"))
    else e0
  match e with
  | some q => if 0 < q then some (1 / q) else Option.none
  | Option.none => Option.none

/-! ### Dictionary lemmas -/

theorem dget_dset (d : ConfigDict) (k kq : String) (v : PyVal) :
    dget (dset d k v) kq = if kq = k then some v else dget d kq := by
  induction d with
  | nil =>
    simp only [dset, dget]
    by_cases h : k = kq
    · rw [if_pos h, if_pos h.symm]
    · rw [if_neg h, if_neg (fun hh => h hh.symm)]
  | cons p rest ih =>
    obtain ⟨k0, v0⟩ := p
    by_cases h0 : k0 = k
    · subst h0
      simp only [dset, if_pos rfl, dget]
      by_cases h : k0 = kq
      · rw [if_pos h, if_pos h.symm]
      · rw [if_neg h, if_neg (fun hh => h hh.symm), if_neg h]
    · simp only [dset, if_neg h0, dget, ih]
      by_cases h : k0 = kq
      · have hkq : ¬ kq = k := fun hh => h0 (h.trans hh)
        rw [if_pos h, if_neg hkq, if_pos h]
      · by_cases hq : kq = k
        · rw [if_neg h, if_pos hq, if_pos hq]
        · rw [if_neg h, if_neg hq, if_neg hq, if_neg h]

theorem fill_nil (d : ConfigDict) : fillFromStore [] d = d := rfl

theorem fill_cons (p : String × PyVal) (rest d : ConfigDict) :
    fillFromStore (p :: rest) d =
      fillFromStore rest (if pyIsNone (dget d p.1) then dset d p.1 p.2 else d) := by
  simp only [fillFromStore, List.foldl]

/-- A key whose value in `d` is not `None`-like is untouched by the fill loop. -/
theorem dget_fill_not_none (l : ConfigDict) (d : ConfigDict) (k : String)
    (h : pyIsNone (dget d k) = false) :
    dget (fillFromStore l d) k = dget d k := by
  induction l generalizing d with
  | nil => rfl
  | cons p rest ih =>
    rw [fill_cons]
    by_cases hc : pyIsNone (dget d p.1) = true
    · rw [if_pos hc]
      have hne : k ≠ p.1 := by
        intro he
        rw [he] at h
        rw [h] at hc
        exact Bool.noConfusion hc
      have hd : dget (dset d p.1 p.2) k = dget d k := by
        rw [dget_dset, if_neg hne]
      rw [ih _ (by rw [hd]; exact h), hd]
    · rw [if_neg hc, ih _ h]

/-- A key outside the store is untouched by the fill loop. -/
theorem dget_fill_not_mem (l : ConfigDict) (d : ConfigDict) (k : String)
    (h : k ∉ l.map Prod.fst) :
    dget (fillFromStore l d) k = dget d k := by
  induction l generalizing d with
  | nil => rfl
  | cons p rest ih =>
    rw [fill_cons]
    have hk : k ≠ p.1 := by
      intro he; exact h (by simp [he])
    have hrest : k ∉ rest.map Prod.fst := by
      intro hm; exact h (by simp [hm])
    by_cases hc : pyIsNone (dget d p.1) = true
    · rw [if_pos hc, ih _ hrest, dget_dset, if_neg hk]
    · rw [if_neg hc, ih _ hrest]

/-- A store key whose value in `d` is absent or `None` is filled with the
store value. -/
theorem dget_fill_none_mem (l : ConfigDict) (d : ConfigDict) (k : String)
    (hnd : (l.map Prod.fst).Nodup) (hmem : k ∈ l.map Prod.fst)
    (h : pyIsNone (dget d k) = true) :
    dget (fillFromStore l d) k = dget l k := by
  induction l generalizing d with
  | nil => simp at hmem
  | cons p rest ih =>
    obtain ⟨k0, v0⟩ := p
    rw [fill_cons]
    have hnd1 : k0 ∉ rest.map Prod.fst := (List.nodup_cons.mp hnd).1
    have hnd2 : (rest.map Prod.fst).Nodup := (List.nodup_cons.mp hnd).2
    by_cases hk : k = k0
    · subst hk
      rw [if_pos (by exact h)]
      rw [dget_fill_not_mem _ _ _ hnd1]
      rw [dget_dset, if_pos rfl]
      simp [dget]
    · have hmem2 : k ∈ rest.map Prod.fst := by
        rcases List.mem_cons.mp hmem with h1 | h2
        · exact absurd h1 hk
        · exact h2
      by_cases hc : pyIsNone (dget d k0) = true
      · rw [if_pos hc]
        have hd : dget (dset d k0 v0) k = dget d k := by
          rw [dget_dset, if_neg hk]
        rw [ih _ hnd2 hmem2 (by rw [hd]; exact h)]
        simp only [dget, if_neg (fun he : k0 = k => hk he.symm)]
      · rw [if_neg hc, ih _ hnd2 hmem2 h]
        simp only [dget, if_neg (fun he : k0 = k => hk he.symm)]

/-! ### Write-phase machinery -/

/-- A write step skips all work when an exception is already recorded. -/
def PassThru (f : WState → WState) : Prop :=
  ∀ dev tr e, f (dev, tr, some e) = (dev, tr, some e)

theorem passThru_wfield (key : String) (a : PyVal → Dev → Dev × List Ev × Option PyExn)
    (d : ConfigDict) : PassThru (wfield key a d) := fun _ _ _ => rfl

theorem passThru_sTrack (d : ConfigDict) : PassThru (sTrack d) := fun _ _ _ => rfl

theorem passThru_writeSteps (d : ConfigDict) : ∀ f ∈ writeSteps d, PassThru f := by
  intro f hf
  simp only [writeSteps, List.mem_cons, List.not_mem_nil, or_false] at hf
  rcases hf with rfl|rfl|rfl|rfl|rfl|rfl|rfl|rfl|rfl|rfl|rfl|rfl|rfl|rfl|rfl|rfl|rfl|rfl|rfl|
    rfl|rfl|rfl|rfl|rfl|rfl|rfl|rfl <;>
    first
      | exact passThru_wfield _ _ _
      | exact passThru_sTrack _

theorem foldSteps_pass (fs : List (WState → WState)) (h : ∀ f ∈ fs, PassThru f)
    (dev : Dev) (tr : List Ev) (e : PyExn) :
    fs.foldl (fun s f => f s) (dev, tr, some e) = (dev, tr, some e) := by
  induction fs with
  | nil => rfl
  | cons f fs ih =>
    simp only [List.foldl]
    rw [h f (List.mem_cons_self f fs) dev tr e]
    exact ih (fun g hg => h g (List.mem_cons_of_mem f hg))

/-- A write step appends at most the events in `cap`, in that order, and all
appended events are writes. -/
def StepBound (f : WState → WState) (cap : List Ev) : Prop :=
  ∀ st : WState,
    ∃ evs, (f st).2.1 = st.2.1 ++ evs ∧ evs.Sublist cap ∧ ∀ e ∈ evs, e.isWrite = true

theorem stepBound_wfield (key : String) (a : PyVal → Dev → Dev × List Ev × Option PyExn)
    (d : ConfigDict) (cap : List Ev)
    (h : ∀ v dev, (a v dev).2.1.Sublist cap ∧ ∀ e ∈ (a v dev).2.1, e.isWrite = true) :
    StepBound (wfield key a d) cap := by
  rintro ⟨dev, tr, r⟩
  cases r with
  | some e => exact ⟨[], by simp [wfield], List.nil_sublist _, by simp⟩
  | none =>
    cases hr : reqKey d key with
    | error e => exact ⟨[], by simp [wfield, hr], List.nil_sublist _, by simp⟩
    | ok v => exact ⟨(a v dev).2.1, by simp [wfield, hr], (h v dev).1, (h v dev).2⟩

theorem stepBound_sTrack (d : ConfigDict) :
    StepBound (sTrack d) [Ev.w "single_track_read_mode_parameters"] := by
  rintro ⟨dev, tr, r⟩
  cases r with
  | some e => exact ⟨[], by simp [sTrack], List.nil_sublist _, by simp⟩
  | none =>
    cases hr : reqKey d "single_track_center_row" with
    | error e => exact ⟨[], by simp [sTrack, hr], List.nil_sublist _, by simp⟩
    | ok vc =>
      cases hr2 : reqKey d "single_track_height" with
      | error e => exact ⟨[], by simp [sTrack, hr, hr2], List.nil_sublist _, by simp⟩
      | ok vh =>
        exact ⟨[Ev.w "single_track_read_mode_parameters"], by simp [sTrack, hr, hr2],
          List.Sublist.refl _, by simp [Ev.isWrite]⟩

theorem aDevIndex_bound (ev : String) (set : Int → Dev → Dev) (v : PyVal) (dev : Dev) :
    ((aDevIndex ev set v dev).2.1).Sublist [Ev.w ev] ∧
      ∀ e ∈ (aDevIndex ev set v dev).2.1, e.isWrite = true := by
  cases h : toDeviceIndex v with
  | error e => simp [aDevIndex, h]
  | ok n => simp [aDevIndex, h, Ev.isWrite]

theorem aDirect_bound (ev : String) (set : PyVal → Dev → Dev) (v : PyVal) (dev : Dev) :
    ((aDirect ev set v dev).2.1).Sublist [Ev.w ev] ∧
      ∀ e ∈ (aDirect ev set v dev).2.1, e.isWrite = true := by
  simp [aDirect, Ev.isWrite]

theorem aVss_bound (v : PyVal) (dev : Dev) :
    ((aVss v dev).2.1).Sublist [Ev.w "vertical_shift_speed"] ∧
      ∀ e ∈ (aVss v dev).2.1, e.isWrite = true := by
  cases v with
  | str s =>
    cases h : parseFloatStr s with
    | some q => simp [aVss, h, Ev.isWrite]
    | none => simp [aVss, h]
  | none => simp [aVss, Ev.isWrite]
  | bool b => simp [aVss, Ev.isWrite]
  | int n => simp [aVss, Ev.isWrite]
  | rat q => simp [aVss, Ev.isWrite]

theorem aHss_bound (v : PyVal) (dev : Dev) :
    ((aHss v dev).2.1).Sublist
        [Ev.w "ad_channel", Ev.w "output_amplifier", Ev.w "horizontal_shift_speed"] ∧
      ∀ e ∈ (aHss v dev).2.1, e.isWrite = true := by
  cases v with
  | str s =>
    simp only [aHss]
    cases h0 : (pyListGet (splitOnChar ',' (((s.data.drop 1).dropLast).filter
        (fun c => c ≠ ' '))) 0).bind intOfChars with
    | error e => simp [h0]
    | ok ad =>
      cases h1 : (pyListGet (splitOnChar ',' (((s.data.drop 1).dropLast).filter
          (fun c => c ≠ ' '))) 1).bind intOfChars with
      | error e => simp [h0, h1, Ev.isWrite]
      | ok amp =>
        cases h2 : (pyListGet (splitOnChar ',' (((s.data.drop 1).dropLast).filter
            (fun c => c ≠ ' '))) 2).bind floatOfChars with
        | error e =>
          simp only [h0, h1, h2]
          refine ⟨?_, by simp [Ev.isWrite]⟩
          decide
        | ok q =>
          simp only [h0, h1, h2]
          exact ⟨List.Sublist.refl _, by simp [Ev.isWrite]⟩
  | none => simp [aHss]
  | bool b => simp [aHss]
  | int n => simp [aHss]
  | rat q => simp [aHss]

theorem aPreAmp_bound (v : PyVal) (dev : Dev) :
    ((aPreAmp v dev).2.1).Sublist [Ev.w "pre_amp_gain"] ∧
      ∀ e ∈ (aPreAmp v dev).2.1, e.isWrite = true := by
  cases v with
  | none => simp [aPreAmp]
  | str s =>
    cases h : pyFloat (PyVal.str s) with
    | error e => simp [aPreAmp, h]
    | ok q => simp [aPreAmp, h, Ev.isWrite]
  | bool b =>
    cases h : pyFloat (PyVal.bool b) with
    | error e => simp [aPreAmp, h]
    | ok q => simp [aPreAmp, h, Ev.isWrite]
  | int n =>
    cases h : pyFloat (PyVal.int n) with
    | error e => simp [aPreAmp, h]
    | ok q => simp [aPreAmp, h, Ev.isWrite]
  | rat q0 =>
    cases h : pyFloat (PyVal.rat q0) with
    | error e => simp [aPreAmp, h]
    | ok q => simp [aPreAmp, h, Ev.isWrite]

theorem stepBound_fold (fs : List (WState → WState)) (caps : List (List Ev))
    (h : List.Forall₂ StepBound fs caps) :
    StepBound (fun st => fs.foldl (fun s f => f s) st) caps.flatten := by
  induction h with
  | nil => exact fun st => ⟨[], by simp, List.nil_sublist _, by simp⟩
  | @cons f cap fs caps hfc htail ih =>
    intro st
    obtain ⟨evs1, he1, hs1, hw1⟩ := hfc st
    obtain ⟨evs2, he2, hs2, hw2⟩ := ih (f st)
    refine ⟨evs1 ++ evs2, ?_, ?_, ?_⟩
    · simp only [List.foldl] at he2 ⊢
      rw [he2, he1, List.append_assoc]
    · simpa [List.flatten] using List.Sublist.append hs1 hs2
    · intro e he
      rcases List.mem_append.mp he with h1 | h2
      · exact hw1 e h1
      · exact hw2 e h2

/-! ### Splitting the write phase at the exposure-time write -/

def expStep (d : ConfigDict) : WState → WState :=
  wfield "exposure_time" (aDirect "exposure_time" (fun v dv => { dv with exposure_time := v })) d

def writeStepsPre (d : ConfigDict) : List (WState → WState) :=
  [ wfield "ccd_device_index" (aDevIndex "ccd_device_index"
      (fun n dv => { dv with ccd_device_index := n })) d
  , wfield "spg_device_index" (aDevIndex "spg_device_index"
      (fun n dv => { dv with spg_device_index := n })) d
  , wfield "grating" (aDirect "current_grating"
      (fun v dv => { dv with current_grating := v })) d
  , wfield "center_wavelength" (aDirect "center_wavelength"
      (fun v dv => { dv with center_wavelength := v })) d
  , wfield "pixel_offset" (aDirect "pixel_offset"
      (fun v dv => { dv with pixel_offset := v })) d
  , wfield "wavelength_offset" (aDirect "wavelength_offset"
      (fun v dv => { dv with wavelength_offset := v })) d
  , wfield "input_port" (aDirect "input_port"
      (fun v dv => { dv with input_port := v })) d
  , wfield "output_port" (aDirect "output_port"
      (fun v dv => { dv with output_port := v })) d
  , wfield "read_mode" (aDirect "read_mode"
      (fun v dv => { dv with read_mode := v })) d
  , wfield "acquisition_mode" (aDirect "acquisition_mode"
      (fun v dv => { dv with acquisition_mode := v })) d
  , wfield "trigger_mode" (aDirect "trigger_mode"
      (fun v dv => { dv with trigger_mode := v })) d ]

def writeStepsPost (d : ConfigDict) : List (WState → WState) :=
  [ wfield "number_of_accumulations" (aDirect "number_of_accumulations"
      (fun v dv => { dv with number_of_accumulations := v })) d
  , wfield "accumulation_cycle_time" (aDirect "accumulation_cycle_time"
      (fun v dv => { dv with accumulation_cycle_time := v })) d
  , wfield "number_of_kinetics" (aDirect "number_of_kinetics"
      (fun v dv => { dv with number_of_kinetics := v })) d
  , wfield "kinetic_cycle_time" (aDirect "kinetic_cycle_time"
      (fun v dv => { dv with kinetic_cycle_time := v })) d
  , wfield "baseline_clamp" (aDirect "baseline_clamp"
      (fun v dv => { dv with baseline_clamp := v })) d
  , wfield "cosmic_ray_removal" (aDirect "remove_cosmic_rays"
      (fun v dv => { dv with remove_cosmic_rays := v })) d
  , wfield "keep_clean_on_external_trigger" (aDirect "keep_clean_on_external_trigger"
      (fun v dv => { dv with keep_clean_on_external_trigger := v })) d
  , sTrack d
  , wfield "vertical_shift_speed" aVss d
  , wfield "horizontal_shift_speed" aHss d
  , wfield "pre_amp_gain" aPreAmp d
  , wfield "target_sensor_temperature" (aDirect "sensor_temperature_set_point"
      (fun v dv => { dv with sensor_temperature_set_point := v })) d
  , wfield "reach_temperature_before_acquisition" (aDirect "reach_temperature_before_acquisition"
      (fun v dv => { dv with reach_temperature_before_acquisition := v })) d
  , wfield "cooler" (aDirect "cooler"
      (fun v dv => { dv with cooler := v })) d
  , wfield "cooler_persistence" (aDirect "cooler_persistence_mode"
      (fun v dv => { dv with cooler_persistence_mode := v })) d ]

theorem writeSteps_split (d : ConfigDict) :
    writeSteps d = writeStepsPre d ++ expStep d :: writeStepsPost d := rfl

/-! ### Congruence of the write phase in the dictionary -/

theorem wfield_congr (key : String) {a : PyVal → Dev → Dev × List Ev × Option PyExn}
    (d1 d2 : ConfigDict) (h : dget d1 key = dget d2 key) :
    wfield key a d1 = wfield key a d2 := by
  funext st
  obtain ⟨dev, tr, r⟩ := st
  cases r with
  | some e => rfl
  | none => simp only [wfield, reqKey, h]

theorem sTrack_congr (d1 d2 : ConfigDict)
    (h1 : dget d1 "single_track_center_row" = dget d2 "single_track_center_row")
    (h2 : dget d1 "single_track_height" = dget d2 "single_track_height") :
    sTrack d1 = sTrack d2 := by
  funext st
  obtain ⟨dev, tr, r⟩ := st
  cases r with
  | some e => rfl
  | none => simp only [sTrack, reqKey, h1, h2]

theorem writeStepsPre_congr (d1 d2 : ConfigDict)
    (h : ∀ k, ¬ k = "exposure_time" → dget d1 k = dget d2 k) :
    writeStepsPre d1 = writeStepsPre d2 := by
  simp only [writeStepsPre]
  rw [wfield_congr "ccd_device_index" d1 d2 (h _ (by decide)),
    wfield_congr "spg_device_index" d1 d2 (h _ (by decide)),
    wfield_congr "grating" d1 d2 (h _ (by decide)),
    wfield_congr "center_wavelength" d1 d2 (h _ (by decide)),
    wfield_congr "pixel_offset" d1 d2 (h _ (by decide)),
    wfield_congr "wavelength_offset" d1 d2 (h _ (by decide)),
    wfield_congr "input_port" d1 d2 (h _ (by decide)),
    wfield_congr "output_port" d1 d2 (h _ (by decide)),
    wfield_congr "read_mode" d1 d2 (h _ (by decide)),
    wfield_congr "acquisition_mode" d1 d2 (h _ (by decide)),
    wfield_congr "trigger_mode" d1 d2 (h _ (by decide))]

theorem writeStepsPost_congr (d1 d2 : ConfigDict)
    (h : ∀ k, ¬ k = "exposure_time" → dget d1 k = dget d2 k) :
    writeStepsPost d1 = writeStepsPost d2 := by
  simp only [writeStepsPost]
  rw [wfield_congr "number_of_accumulations" d1 d2 (h _ (by decide)),
    wfield_congr "accumulation_cycle_time" d1 d2 (h _ (by decide)),
    wfield_congr "number_of_kinetics" d1 d2 (h _ (by decide)),
    wfield_congr "kinetic_cycle_time" d1 d2 (h _ (by decide)),
    wfield_congr "baseline_clamp" d1 d2 (h _ (by decide)),
    wfield_congr "cosmic_ray_removal" d1 d2 (h _ (by decide)),
    wfield_congr "keep_clean_on_external_trigger" d1 d2 (h _ (by decide)),
    sTrack_congr d1 d2 (h _ (by decide)) (h _ (by decide)),
    wfield_congr "vertical_shift_speed" d1 d2 (h _ (by decide)),
    wfield_congr "horizontal_shift_speed" d1 d2 (h _ (by decide)),
    wfield_congr "pre_amp_gain" d1 d2 (h _ (by decide)),
    wfield_congr "target_sensor_temperature" d1 d2 (h _ (by decide)),
    wfield_congr "reach_temperature_before_acquisition" d1 d2 (h _ (by decide)),
    wfield_congr "cooler" d1 d2 (h _ (by decide)),
    wfield_congr "cooler_persistence" d1 d2 (h _ (by decide))]

/-! ### Commutation of the post-exposure steps with an exposure override -/

/-- Overriding the device's exposure time inside a write-phase state. -/
def oExp (v : PyVal) : WState → WState :=
  fun st => ({ st.1 with exposure_time := v }, st.2.1, st.2.2)

def CommutesExp (f : WState → WState) (v : PyVal) : Prop :=
  ∀ st, f (oExp v st) = oExp v (f st)

def ActCommutes (a : PyVal → Dev → Dev × List Ev × Option PyExn) (v : PyVal) : Prop :=
  ∀ w dev, a w { dev with exposure_time := v } =
    ({ (a w dev).1 with exposure_time := v }, (a w dev).2.1, (a w dev).2.2)

theorem actCommutes_aDirect (ev : String) (set : PyVal → Dev → Dev) (v : PyVal)
    (hset : ∀ w dev, set w { dev with exposure_time := v } =
      { set w dev with exposure_time := v }) :
    ActCommutes (aDirect ev set) v := by
  intro w dev
  simp only [aDirect, hset]

theorem actCommutes_aVss (v : PyVal) : ActCommutes aVss v := by
  intro w dev
  cases w with
  | str s =>
    cases h : parseFloatStr s with
    | some q => simp only [aVss, h]
    | none => simp only [aVss, h]
  | none => rfl
  | bool b => rfl
  | int n => rfl
  | rat q => rfl

theorem actCommutes_aHss (v : PyVal) : ActCommutes aHss v := by
  intro w dev
  cases w with
  | str s =>
    simp only [aHss]
    cases h0 : (pyListGet (splitOnChar ',' (((s.data.drop 1).dropLast).filter
        (fun c => c ≠ ' '))) 0).bind intOfChars with
    | error e => simp [h0]
    | ok ad =>
      cases h1 : (pyListGet (splitOnChar ',' (((s.data.drop 1).dropLast).filter
          (fun c => c ≠ ' '))) 1).bind intOfChars with
      | error e => simp [h0, h1]
      | ok amp =>
        cases h2 : (pyListGet (splitOnChar ',' (((s.data.drop 1).dropLast).filter
            (fun c => c ≠ ' '))) 2).bind floatOfChars with
        | error e => simp [h0, h1, h2]
        | ok q => simp [h0, h1, h2]
  | none => rfl
  | bool b => rfl
  | int n => rfl
  | rat q => rfl

theorem actCommutes_aPreAmp (v : PyVal) : ActCommutes aPreAmp v := by
  intro w dev
  cases w with
  | none => rfl
  | str s =>
    cases h : pyFloat (PyVal.str s) with
    | error e => simp [aPreAmp, h]
    | ok q => simp [aPreAmp, h]
  | bool b =>
    cases h : pyFloat (PyVal.bool b) with
    | error e => simp [aPreAmp, h]
    | ok q => simp [aPreAmp, h]
  | int n =>
    cases h : pyFloat (PyVal.int n) with
    | error e => simp [aPreAmp, h]
    | ok q => simp [aPreAmp, h]
  | rat q0 =>
    cases h : pyFloat (PyVal.rat q0) with
    | error e => simp [aPreAmp, h]
    | ok q => simp [aPreAmp, h]

theorem actCommutes_aDevIndex (ev : String) (set : Int → Dev → Dev) (v : PyVal)
    (hset : ∀ n dev, set n { dev with exposure_time := v } =
      { set n dev with exposure_time := v }) :
    ActCommutes (aDevIndex ev set) v := by
  intro w dev
  cases h : toDeviceIndex w with
  | error e => simp [aDevIndex, h]
  | ok n => simp [aDevIndex, h, hset]

theorem commutesExp_wfield (key : String) (a : PyVal → Dev → Dev × List Ev × Option PyExn)
    (d : ConfigDict) (v : PyVal) (h : ActCommutes a v) : CommutesExp (wfield key a d) v := by
  rintro ⟨dev, tr, r⟩
  cases r with
  | some e => rfl
  | none =>
    cases hr : reqKey d key with
    | error e => simp [wfield, oExp, hr]
    | ok w => simp [wfield, oExp, hr, h w dev]

theorem commutesExp_sTrack (d : ConfigDict) (v : PyVal) : CommutesExp (sTrack d) v := by
  rintro ⟨dev, tr, r⟩
  cases r with
  | some e => rfl
  | none =>
    cases h1 : reqKey d "single_track_center_row" with
    | error e => simp [sTrack, oExp, h1]
    | ok vc =>
      cases h2 : reqKey d "single_track_height" with
      | error e => simp [sTrack, oExp, h1, h2]
      | ok vh => simp [sTrack, oExp, h1, h2]

theorem writeStepsPost_commute (d : ConfigDict) (v : PyVal) :
    ∀ f ∈ writeStepsPost d, CommutesExp f v := by
  intro f hf
  simp only [writeStepsPost, List.mem_cons, List.not_mem_nil, or_false] at hf
  rcases hf with rfl|rfl|rfl|rfl|rfl|rfl|rfl|rfl|rfl|rfl|rfl|rfl|rfl|rfl|rfl <;>
    first
      | exact commutesExp_wfield _ _ _ _ (actCommutes_aDirect _ _ _ (fun _ _ => rfl))
      | exact commutesExp_wfield _ _ _ _ (actCommutes_aVss _)
      | exact commutesExp_wfield _ _ _ _ (actCommutes_aHss _)
      | exact commutesExp_wfield _ _ _ _ (actCommutes_aPreAmp _)
      | exact commutesExp_sTrack _ _

theorem writeStepsPost_pass (d : ConfigDict) : ∀ f ∈ writeStepsPost d, PassThru f := by
  intro f hf
  simp only [writeStepsPost, List.mem_cons, List.not_mem_nil, or_false] at hf
  rcases hf with rfl|rfl|rfl|rfl|rfl|rfl|rfl|rfl|rfl|rfl|rfl|rfl|rfl|rfl|rfl <;>
    first
      | exact passThru_wfield _ _ _
      | exact passThru_sTrack _

theorem foldSteps_commute (fs : List (WState → WState)) (v : PyVal)
    (h : ∀ f ∈ fs, CommutesExp f v) (st : WState) :
    fs.foldl (fun s f => f s) (oExp v st) = oExp v (fs.foldl (fun s f => f s) st) := by
  induction fs generalizing st with
  | nil => rfl
  | cons f fs ih =>
    simp only [List.foldl]
    rw [h f (List.mem_cons_self f fs) st]
    exact ih (fun g hg => h g (List.mem_cons_of_mem f hg)) (f st)

/-- The key locality fact: re-running the write phase with the same dictionary
except for a present `exposure_time` entry `v` produces the same writes and
trace, with only the device's exposure time overridden. -/
theorem writePhase_override (s d1 : ConfigDict) (dev : Dev) (v : PyVal)
    (hagree : ∀ k, ¬ k = "exposure_time" → dget d1 k = dget s k)
    (hexp : dget d1 "exposure_time" = some v)
    (hok : (writePhase s dev).2.2 = Option.none) :
    writePhase d1 dev = ({ (writePhase s dev).1 with exposure_time := v },
      (writePhase s dev).2.1, Option.none) := by
  have hsplit : ∀ d : ConfigDict, writePhase d dev =
      (writeStepsPost d).foldl (fun st f => f st)
        (expStep d ((writeStepsPre d).foldl (fun st f => f st) (dev, [], Option.none))) := by
    intro d
    simp only [writePhase]
    rw [writeSteps_split, List.foldl_append, List.foldl_cons]
  have hpre : (writeStepsPre d1).foldl (fun st f => f st) (dev, [], Option.none) =
      (writeStepsPre s).foldl (fun st f => f st) (dev, [], Option.none) := by
    rw [writeStepsPre_congr d1 s hagree]
  have hpost : writeStepsPost d1 = writeStepsPost s := writeStepsPost_congr d1 s hagree
  rcases hA : (writeStepsPre s).foldl (fun st f => f st) (dev, [], Option.none)
    with ⟨devA, trA, rA⟩
  cases rA with
  | some e =>
    exfalso
    have hps : writePhase s dev = (devA, trA, some e) := by
      rw [hsplit s, hA]
      have h1 : expStep s (devA, trA, some e) = (devA, trA, some e) := rfl
      rw [h1]
      exact foldSteps_pass _ (writeStepsPost_pass s) devA trA e
    rw [hps] at hok
    exact Option.noConfusion hok
  | none =>
    cases hes : dget s "exposure_time" with
    | none =>
      exfalso
      have h1 : expStep s (devA, trA, Option.none) =
          (devA, trA, some (PyExn.keyError "exposure_time")) := by
        simp [expStep, wfield, reqKey, hes]
      have hps : writePhase s dev = (devA, trA, some (PyExn.keyError "exposure_time")) := by
        rw [hsplit s, hA, h1]
        exact foldSteps_pass _ (writeStepsPost_pass s) devA trA _
      rw [hps] at hok
      exact Option.noConfusion hok
    | some w =>
      have hL : expStep d1 (devA, trA, Option.none) =
          ({ devA with exposure_time := v }, trA ++ [Ev.w "exposure_time"], Option.none) := by
        simp [expStep, wfield, reqKey, hexp, aDirect]
      have hR : expStep s (devA, trA, Option.none) =
          ({ devA with exposure_time := w }, trA ++ [Ev.w "exposure_time"], Option.none) := by
        simp [expStep, wfield, reqKey, hes, aDirect]
      have hoe : ({ devA with exposure_time := v }, trA ++ [Ev.w "exposure_time"],
          (Option.none : Option PyExn)) =
          oExp v ({ devA with exposure_time := w }, trA ++ [Ev.w "exposure_time"],
            Option.none) := rfl
      have hfinal : writePhase d1 dev = oExp v (writePhase s dev) := by
        rw [hsplit d1, hsplit s, hpost, hpre, hA, hL, hR, hoe]
        exact foldSteps_commute (writeStepsPost s) v (writeStepsPost_commute s v) _
      rw [hfinal]
      simp only [oExp]
      rw [hok]

/-! ### Read-back lemmas -/

theorem dget_readback_exposure (s : ConfigDict) (dev : Dev) :
    dget (update_config_dict_from_current_values s dev) "exposure_time" =
      some dev.exposure_time := by
  simp [update_config_dict_from_current_values, dget_dset]

theorem dget_readback_override (s : ConfigDict) (dev : Dev) (v : PyVal) (k : String)
    (hk : ¬ k = "exposure_time") :
    dget (update_config_dict_from_current_values s { dev with exposure_time := v }) k =
      dget (update_config_dict_from_current_values s dev) k := by
  simp [update_config_dict_from_current_values, dget_dset, hk]

/-! ### The write trace is a sublist of the fixed order -/

def writeCaps : List (List Ev) :=
  [[Ev.w "ccd_device_index"], [Ev.w "spg_device_index"], [Ev.w "current_grating"],
   [Ev.w "center_wavelength"], [Ev.w "pixel_offset"], [Ev.w "wavelength_offset"],
   [Ev.w "input_port"], [Ev.w "output_port"], [Ev.w "read_mode"], [Ev.w "acquisition_mode"],
   [Ev.w "trigger_mode"], [Ev.w "exposure_time"], [Ev.w "number_of_accumulations"],
   [Ev.w "accumulation_cycle_time"], [Ev.w "number_of_kinetics"], [Ev.w "kinetic_cycle_time"],
   [Ev.w "baseline_clamp"], [Ev.w "remove_cosmic_rays"], [Ev.w "keep_clean_on_external_trigger"],
   [Ev.w "single_track_read_mode_parameters"], [Ev.w "vertical_shift_speed"],
   [Ev.w "ad_channel", Ev.w "output_amplifier", Ev.w "horizontal_shift_speed"],
   [Ev.w "pre_amp_gain"], [Ev.w "sensor_temperature_set_point"],
   [Ev.w "reach_temperature_before_acquisition"], [Ev.w "cooler"],
   [Ev.w "cooler_persistence_mode"]]

theorem forall₂_writeSteps_caps (d : ConfigDict) :
    List.Forall₂ StepBound (writeSteps d) writeCaps := by
  simp only [writeSteps, writeCaps]
  refine .cons (stepBound_wfield _ _ _ _ (fun v dev => aDevIndex_bound _ _ v dev)) ?_
  refine .cons (stepBound_wfield _ _ _ _ (fun v dev => aDevIndex_bound _ _ v dev)) ?_
  refine .cons (stepBound_wfield _ _ _ _ (fun v dev => aDirect_bound _ _ v dev)) ?_
  refine .cons (stepBound_wfield _ _ _ _ (fun v dev => aDirect_bound _ _ v dev)) ?_
  refine .cons (stepBound_wfield _ _ _ _ (fun v dev => aDirect_bound _ _ v dev)) ?_
  refine .cons (stepBound_wfield _ _ _ _ (fun v dev => aDirect_bound _ _ v dev)) ?_
  refine .cons (stepBound_wfield _ _ _ _ (fun v dev => aDirect_bound _ _ v dev)) ?_
  refine .cons (stepBound_wfield _ _ _ _ (fun v dev => aDirect_bound _ _ v dev)) ?_
  refine .cons (stepBound_wfield _ _ _ _ (fun v dev => aDirect_bound _ _ v dev)) ?_
  refine .cons (stepBound_wfield _ _ _ _ (fun v dev => aDirect_bound _ _ v dev)) ?_
  refine .cons (stepBound_wfield _ _ _ _ (fun v dev => aDirect_bound _ _ v dev)) ?_
  refine .cons (stepBound_wfield _ _ _ _ (fun v dev => aDirect_bound _ _ v dev)) ?_
  refine .cons (stepBound_wfield _ _ _ _ (fun v dev => aDirect_bound _ _ v dev)) ?_
  refine .cons (stepBound_wfield _ _ _ _ (fun v dev => aDirect_bound _ _ v dev)) ?_
  refine .cons (stepBound_wfield _ _ _ _ (fun v dev => aDirect_bound _ _ v dev)) ?_
  refine .cons (stepBound_wfield _ _ _ _ (fun v dev => aDirect_bound _ _ v dev)) ?_
  refine .cons (stepBound_wfield _ _ _ _ (fun v dev => aDirect_bound _ _ v dev)) ?_
  refine .cons (stepBound_wfield _ _ _ _ (fun v dev => aDirect_bound _ _ v dev)) ?_
  refine .cons (stepBound_wfield _ _ _ _ (fun v dev => aDirect_bound _ _ v dev)) ?_
  refine .cons (stepBound_sTrack d) ?_
  refine .cons (stepBound_wfield _ _ _ _ (fun v dev => aVss_bound v dev)) ?_
  refine .cons (stepBound_wfield _ _ _ _ (fun v dev => aHss_bound v dev)) ?_
  refine .cons (stepBound_wfield _ _ _ _ (fun v dev => aPreAmp_bound v dev)) ?_
  refine .cons (stepBound_wfield _ _ _ _ (fun v dev => aDirect_bound _ _ v dev)) ?_
  refine .cons (stepBound_wfield _ _ _ _ (fun v dev => aDirect_bound _ _ v dev)) ?_
  refine .cons (stepBound_wfield _ _ _ _ (fun v dev => aDirect_bound _ _ v dev)) ?_
  refine .cons (stepBound_wfield _ _ _ _ (fun v dev => aDirect_bound _ _ v dev)) ?_
  exact .nil

/-- The write phase only ever issues write events, in the fixed source order. -/
theorem writePhase_trace (d : ConfigDict) (dev : Dev) :
    ((writePhase d dev).2.1).Sublist writeOrderFull ∧
      ∀ e ∈ (writePhase d dev).2.1, e.isWrite = true := by
  obtain ⟨evs, he, hs, hw⟩ :=
    stepBound_fold (writeSteps d) writeCaps (forall₂_writeSteps_caps d) (dev, [], Option.none)
  have hwp : (writePhase d dev).2.1 = evs := by
    simp only [writePhase]
    rw [he]
    exact List.nil_append evs
  rw [hwp]
  have hflat : writeCaps.flatten = writeOrderFull := by decide
  rw [hflat] at hs
  exact ⟨hs, hw⟩

/-- The write order with the horizontal-shift-speed sub-writes removed. -/
def writeOrderNoHss : List Ev :=
  [Ev.w "ccd_device_index", Ev.w "spg_device_index", Ev.w "current_grating",
   Ev.w "center_wavelength", Ev.w "pixel_offset", Ev.w "wavelength_offset",
   Ev.w "input_port", Ev.w "output_port", Ev.w "read_mode", Ev.w "acquisition_mode",
   Ev.w "trigger_mode", Ev.w "exposure_time", Ev.w "number_of_accumulations",
   Ev.w "accumulation_cycle_time", Ev.w "number_of_kinetics", Ev.w "kinetic_cycle_time",
   Ev.w "baseline_clamp", Ev.w "remove_cosmic_rays", Ev.w "keep_clean_on_external_trigger",
   Ev.w "single_track_read_mode_parameters", Ev.w "vertical_shift_speed",
   Ev.w "pre_amp_gain", Ev.w "sensor_temperature_set_point",
   Ev.w "reach_temperature_before_acquisition", Ev.w "cooler", Ev.w "cooler_persistence_mode"]

theorem stepBound_hss_none (d : ConfigDict)
    (h : dget d "horizontal_shift_speed" = some PyVal.none) :
    StepBound (wfield "horizontal_shift_speed" aHss d) [] := by
  rintro ⟨dev, tr, r⟩
  cases r with
  | some e => exact ⟨[], by simp [wfield], List.nil_sublist _, by simp⟩
  | none =>
    have hr : reqKey d "horizontal_shift_speed" = .ok PyVal.none := by simp [reqKey, h]
    exact ⟨[], by simp [wfield, hr, aHss], List.nil_sublist _, by simp⟩

theorem writePhase_no_hss_writes (d : ConfigDict) (dev : Dev)
    (h : dget d "horizontal_shift_speed" = some PyVal.none) :
    ((writePhase d dev).2.1).Sublist writeOrderNoHss := by
  have hF : List.Forall₂ StepBound (writeSteps d)
      (writeCaps.take 21 ++ [] :: writeCaps.drop 22) := by
    simp only [writeSteps, writeCaps, List.take, List.drop, List.cons_append, List.nil_append]
    refine .cons (stepBound_wfield _ _ _ _ (fun v dev => aDevIndex_bound _ _ v dev)) ?_
    refine .cons (stepBound_wfield _ _ _ _ (fun v dev => aDevIndex_bound _ _ v dev)) ?_
    refine .cons (stepBound_wfield _ _ _ _ (fun v dev => aDirect_bound _ _ v dev)) ?_
    refine .cons (stepBound_wfield _ _ _ _ (fun v dev => aDirect_bound _ _ v dev)) ?_
    refine .cons (stepBound_wfield _ _ _ _ (fun v dev => aDirect_bound _ _ v dev)) ?_
    refine .cons (stepBound_wfield _ _ _ _ (fun v dev => aDirect_bound _ _ v dev)) ?_
    refine .cons (stepBound_wfield _ _ _ _ (fun v dev => aDirect_bound _ _ v dev)) ?_
    refine .cons (stepBound_wfield _ _ _ _ (fun v dev => aDirect_bound _ _ v dev)) ?_
    refine .cons (stepBound_wfield _ _ _ _ (fun v dev => aDirect_bound _ _ v dev)) ?_
    refine .cons (stepBound_wfield _ _ _ _ (fun v dev => aDirect_bound _ _ v dev)) ?_
    refine .cons (stepBound_wfield _ _ _ _ (fun v dev => aDirect_bound _ _ v dev)) ?_
    refine .cons (stepBound_wfield _ _ _ _ (fun v dev => aDirect_bound _ _ v dev)) ?_
    refine .cons (stepBound_wfield _ _ _ _ (fun v dev => aDirect_bound _ _ v dev)) ?_
    refine .cons (stepBound_wfield _ _ _ _ (fun v dev => aDirect_bound _ _ v dev)) ?_
    refine .cons (stepBound_wfield _ _ _ _ (fun v dev => aDirect_bound _ _ v dev)) ?_
    refine .cons (stepBound_wfield _ _ _ _ (fun v dev => aDirect_bound _ _ v dev)) ?_
    refine .cons (stepBound_wfield _ _ _ _ (fun v dev => aDirect_bound _ _ v dev)) ?_
    refine .cons (stepBound_wfield _ _ _ _ (fun v dev => aDirect_bound _ _ v dev)) ?_
    refine .cons (stepBound_wfield _ _ _ _ (fun v dev => aDirect_bound _ _ v dev)) ?_
    refine .cons (stepBound_sTrack d) ?_
    refine .cons (stepBound_wfield _ _ _ _ (fun v dev => aVss_bound v dev)) ?_
    refine .cons (stepBound_hss_none d h) ?_
    refine .cons (stepBound_wfield _ _ _ _ (fun v dev => aPreAmp_bound v dev)) ?_
    refine .cons (stepBound_wfield _ _ _ _ (fun v dev => aDirect_bound _ _ v dev)) ?_
    refine .cons (stepBound_wfield _ _ _ _ (fun v dev => aDirect_bound _ _ v dev)) ?_
    refine .cons (stepBound_wfield _ _ _ _ (fun v dev => aDirect_bound _ _ v dev)) ?_
    refine .cons (stepBound_wfield _ _ _ _ (fun v dev => aDirect_bound _ _ v dev)) ?_
    exact .nil
  obtain ⟨evs, he, hs, _⟩ :=
    stepBound_fold (writeSteps d) _ hF (dev, [], Option.none)
  have hwp : (writePhase d dev).2.1 = evs := by
    simp only [writePhase]
    rw [he]
    exact List.nil_append evs
  rw [hwp]
  have hflat : (writeCaps.take 21 ++ [] :: writeCaps.drop 22).flatten = writeOrderNoHss := by
    decide
  rw [hflat] at hs
  exact hs

/-! ### Unfolding `configure` on the direct (no-connection) path -/

theorem configure_noattempt (σ : Ctrl) (d : ConfigDict)
    (hne : ¬ σ.last_config_dict = []) :
    configure σ d false = configureCore σ d := by
  simp only [configure, if_neg hne, Bool.false_eq_true, if_false]
  cases ho : (configureCore σ d).err <;> cases hr : (configureCore σ d).raised <;>
    (simp [ho, hr]; rw [← ho, ← hr])

/-! ### Auxiliary dictionary fact and substring test -/

theorem dget_not_mem (l : ConfigDict) (k : String) (h : k ∉ l.map Prod.fst) :
    dget l k = Option.none := by
  induction l with
  | nil => rfl
  | cons p rest ih =>
    obtain ⟨k0, v0⟩ := p
    have hk : ¬ k0 = k := by
      intro he; exact h (by simp [he])
    simp only [dget, if_neg hk]
    exact ih (fun hm => h (by simp [hm]))

def startsWithSeq : List Char → List Char → Bool
  | _, [] => true
  | [], _ :: _ => false
  | h :: hs, n :: ns => h = n && startsWithSeq hs ns

/-- `containsSeq hay needle`: does `needle` occur inside `hay`? -/
def containsSeq : List Char → List Char → Bool
  | _, [] => true
  | [], _ :: _ => false
  | h :: hs, n :: ns => startsWithSeq (h :: hs) (n :: ns) || containsSeq hs (n :: ns)

/-! ### Concrete states for witnesses and counterexamples -/

/-- A concrete adapter state whose read-back is a fixed point of the write
phase (all fields in canonical read-back form). -/
def devBase : Dev where
  is_open := false
  openWorks := true
  closeWorks := true
  ccd_device_index := 0
  spg_device_index := 0
  current_grating := PyVal.str "1"
  center_wavelength := PyVal.rat 700
  pixel_offset := PyVal.rat 0
  wavelength_offset := PyVal.rat 0
  input_port := PyVal.str "DIRECT"
  output_port := PyVal.str "DIRECT"
  read_mode := PyVal.str "FULL_VERTICAL_BINNING"
  acquisition_mode := PyVal.str "SINGLE_SCAN"
  trigger_mode := PyVal.str "INTERNAL"
  exposure_time := PyVal.rat 1
  number_of_accumulations := PyVal.int 1
  accumulation_cycle_time := PyVal.rat 0
  number_of_kinetics := PyVal.int 1
  kinetic_cycle_time := PyVal.rat 0
  baseline_clamp := PyVal.bool true
  remove_cosmic_rays := PyVal.bool false
  keep_clean_on_external_trigger := PyVal.bool true
  track_center_row := PyVal.int 100
  track_height := PyVal.int 10
  vertical_shift_speed := PyVal.rat 5
  ad_channel := 0
  output_amplifier := 1
  horizontal_shift_speed := 3
  pre_amp_gain := 1
  sensor_temperature_set_point := PyVal.int (-60)
  cooler := PyVal.bool true
  cooler_persistence_mode := PyVal.bool false
  reach_temperature_before_acquisition := PyVal.bool true
  waiting_for_temperature := false
  daq_closed := false

/-- The Configuration Store produced by reading `devBase` back. -/
def storeBase : ConfigDict := update_config_dict_from_current_values [] devBase

def devOpenBase : Dev := { devBase with is_open := true }

/-! ### C1: not-open configure stores the diff and reports without raising -/

/-- C1: when `configure` cannot establish a connection (here: empty store, no
prior connection, adapter connect fails, `attempt_connection=False`), it still
attempts to open, records the partial requested configuration into the
Configuration Store, reports the not-open error, and raises nothing. -/
theorem configure_records_and_reports_when_not_open (σ : Ctrl) (d : ConfigDict)
    (hstore : σ.last_config_dict = [])
    (hclosed : σ.dev.is_open = false)
    (hfail : σ.dev.openWorks = false) :
    (configure σ d false).raised = Option.none ∧
    (configure σ d false).err = some CtrlErr.deviceNotOpen ∧
    (configure σ d false).state.last_config_dict = dupdate σ.last_config_dict d ∧
    Ev.connect ∈ (configure σ d false).trace := by
  have hdev : (devConnect σ.dev).is_open = false := by
    simp [devConnect, hclosed, hfail]
  simp [configure, hstore, openCtrl, hdev, configureCore]

def sigma1w : Ctrl := ⟨{ devBase with openWorks := false }, []⟩

theorem configure_records_and_reports_when_not_open_witness :
    (configure sigma1w [("exposure_time", PyVal.rat 2)] false).raised = Option.none ∧
    (configure sigma1w [("exposure_time", PyVal.rat 2)] false).err =
      some CtrlErr.deviceNotOpen ∧
    (configure sigma1w [("exposure_time", PyVal.rat 2)] false).state.last_config_dict =
      dupdate sigma1w.last_config_dict [("exposure_time", PyVal.rat 2)] ∧
    Ev.connect ∈ (configure sigma1w [("exposure_time", PyVal.rat 2)] false).trace :=
  configure_records_and_reports_when_not_open sigma1w [("exposure_time", PyVal.rat 2)]
    rfl rfl rfl

/-! ### C2: stop cancels the wait but, contrary to the claim, also closes -/

def sigmaStop : Ctrl := ⟨{ devOpenBase with waiting_for_temperature := true }, storeBase⟩

/-- C2 counterexample: `stop()` does invoke `close()` — on an open connection
with a working disconnect, the connection state changes from open to closed
and a disconnect is issued, refuting "the connection state is unchanged by
stop() itself". -/
theorem stop_closes_connection :
    sigmaStop.dev.is_open = true ∧
    (stopCtrl sigmaStop).1.dev.is_open = false ∧
    Ev.disconnect ∈ (stopCtrl sigmaStop).2 := by
  refine ⟨rfl, rfl, ?_⟩
  decide

/-- C2 (amended): `stop()` cancels the pending temperature wait and then
invokes `close()`; on an open connection with a working disconnect the
connection is closed by `stop()`. -/
theorem stop_cancels_wait_and_closes (σ : Ctrl) :
    (stopCtrl σ).1.dev.waiting_for_temperature = false ∧
    stopCtrl σ =
      ((closeCtrl { σ with dev := { σ.dev with waiting_for_temperature := false } }).1,
        Ev.daqStopWait ::
          (closeCtrl { σ with dev := { σ.dev with waiting_for_temperature := false } }).2.2) ∧
    (σ.dev.is_open = true → σ.dev.closeWorks = true → (stopCtrl σ).1.dev.is_open = false) := by
  refine ⟨?_, rfl, ?_⟩
  · by_cases h : σ.dev.is_open = false
    · simp [stopCtrl, closeCtrl, h]
    · simp [stopCtrl, closeCtrl, h, devDisconnect]
  · intro h1 h2
    simp [stopCtrl, closeCtrl, h1, h2, devDisconnect]

theorem stop_cancels_wait_and_closes_witness :
    (stopCtrl sigmaStop).1.dev.is_open = false :=
  (stop_cancels_wait_and_closes sigmaStop).2.2 rfl rfl

/-! ### C5: a failed disconnect leaves the adapter open, not closed -/

def sigmaBadClose : Ctrl := ⟨{ devOpenBase with closeWorks := false }, storeBase⟩

/-- C5 counterexample: when the adapter disconnect fails, `close()` returns
`false` and the connection state remains open — not `Closed` as claimed. -/
theorem close_failure_leaves_adapter_open :
    (closeCtrl sigmaBadClose).2.1 = false ∧
    (closeCtrl sigmaBadClose).1.dev.is_open = true := by
  exact ⟨rfl, rfl⟩

/-- C5 (amended): a `close()` failure is reported only through the boolean
return value (which always reflects the adapter's open state, with no raise
path in `close`), a failed disconnect leaves the connection open as reported
by the adapter, and a subsequent `open()` still invokes the adapter connect
afresh. -/
theorem close_reports_failure_without_raising (σ : Ctrl) :
    ((closeCtrl σ).2.1 = !(closeCtrl σ).1.dev.is_open) ∧
    (σ.dev.is_open = true → σ.dev.closeWorks = false →
      (closeCtrl σ).2.1 = false ∧ (closeCtrl σ).1.dev.is_open = true) ∧
    Ev.connect ∈ (openCtrl (closeCtrl σ).1).trace := by
  refine ⟨?_, ?_, ?_⟩
  · by_cases h : σ.dev.is_open = false
    · simp [closeCtrl, h]
    · simp [closeCtrl, h, devDisconnect]
  · intro h1 h2
    simp [closeCtrl, h1, h2, devDisconnect]
  · by_cases h : (devConnect (closeCtrl σ).1.dev).is_open = true
    · by_cases hs : (closeCtrl σ).1.last_config_dict = []
      · simp [openCtrl, h, hs]
      · simp [openCtrl, h, hs]
    · simp [openCtrl, h]

theorem close_reports_failure_without_raising_witness :
    (closeCtrl sigmaBadClose).2.1 = false ∧
    (closeCtrl sigmaBadClose).1.dev.is_open = true :=
  (close_reports_failure_without_raising sigmaBadClose).2.1 rfl rfl

/-! ### C6: close is idempotent -/

/-- C6: `close()` on an already-closed connection returns `true` immediately
with no adapter interaction, and (with a working adapter disconnect) two
consecutive `close()` calls both return `true` and leave the connection
closed. -/
theorem close_idempotent (σ : Ctrl) :
    (σ.dev.is_open = false → closeCtrl σ = (σ, true, [])) ∧
    (σ.dev.closeWorks = true →
      (closeCtrl σ).2.1 = true ∧
      (closeCtrl (closeCtrl σ).1).2.1 = true ∧
      (closeCtrl (closeCtrl σ).1).1.dev.is_open = false) := by
  constructor
  · intro h
    simp [closeCtrl, h]
  · intro h
    by_cases h1 : σ.dev.is_open = false
    · simp [closeCtrl, h1]
    · simp [closeCtrl, h1, devDisconnect, h]

theorem close_idempotent_witness :
    closeCtrl ⟨devBase, storeBase⟩ = (⟨devBase, storeBase⟩, true, []) ∧
    (closeCtrl ⟨devOpenBase, storeBase⟩).2.1 = true ∧
    (closeCtrl (closeCtrl ⟨devOpenBase, storeBase⟩).1).2.1 = true ∧
    (closeCtrl (closeCtrl ⟨devOpenBase, storeBase⟩).1).1.dev.is_open = false :=
  ⟨(close_idempotent ⟨devBase, storeBase⟩).1 rfl,
    (close_idempotent ⟨devOpenBase, storeBase⟩).2 rfl⟩

/-! ### C7: the effective sample rate -/

/-- C7 counterexample: with the acquisition mode unset and a positive
exposure, `clock_rate` returns `1/exposure` (here `2.0`), not the
"unavailable" sentinel — refuting "returns the sentinel whenever the
acquisition mode is unrecognized/unset". -/
theorem clock_rate_unset_mode_not_sentinel :
    dget [("exposure_time", PyVal.rat (1/2))] "acquisition_mode" = Option.none ∧
    clock_rate ⟨devBase, [("exposure_time", PyVal.rat (1/2))]⟩ = some 2 := by
  constructor
  · rfl
  · with_unfolding_all decide

/-- C7 (amended): `clock_rate` is `1/exposure` in any mode other than
accumulate/kinetics (including an unset or unrecognized mode), divides by the
accumulation count in accumulate mode and additionally by the kinetics count
in kinetic-series mode, and returns the nan sentinel (never an exception and
never infinity) exactly when the effective exposure is absent or
non-positive. -/
theorem clock_rate_formula (dev : Dev) (store : ConfigDict) (e : ℚ) (n k : Int) :
    (¬ dget store "acquisition_mode" = some (PyVal.str "ACCUMULATE") →
     ¬ dget store "acquisition_mode" = some (PyVal.str "KINETICS") →
     dget store "exposure_time" = some (PyVal.rat e) →
     clock_rate ⟨dev, store⟩ = if 0 < e then some (1 / e) else Option.none) ∧
    (dget store "acquisition_mode" = some (PyVal.str "ACCUMULATE") →
     dget store "exposure_time" = some (PyVal.rat e) →
     dget store "number_of_accumulations" = some (PyVal.int n) →
     clock_rate ⟨dev, store⟩ =
       if 0 < e * (n : ℚ) then some (1 / (e * (n : ℚ))) else Option.none) ∧
    (dget store "acquisition_mode" = some (PyVal.str "KINETICS") →
     dget store "exposure_time" = some (PyVal.rat e) →
     dget store "number_of_accumulations" = some (PyVal.int n) →
     dget store "number_of_kinetics" = some (PyVal.int k) →
     clock_rate ⟨dev, store⟩ =
       if 0 < e * (n : ℚ) * (k : ℚ) then some (1 / (e * (n : ℚ) * (k : ℚ)))
       else Option.none) ∧
    (dget store "exposure_time" = Option.none → clock_rate ⟨dev, store⟩ = Option.none) ∧
    (dget store "acquisition_mode" = some (PyVal.str "ACCUMULATE") →
     dget store "number_of_accumulations" = Option.none →
     clock_rate ⟨dev, store⟩ = Option.none) := by
  refine ⟨?_, ?_, ?_, ?_, ?_⟩
  · intro h1 h2 h3
    simp [clock_rate, asNanNum, h1, h2, h3]
  · intro h1 h3 h4
    simp [clock_rate, asNanNum, mulNan, h1, h3, h4]
  · intro h1 h3 h4 h5
    simp [clock_rate, asNanNum, mulNan, h1, h3, h4, h5, mul_assoc]
  · intro h
    by_cases hm1 : dget store "acquisition_mode" = some (PyVal.str "ACCUMULATE")
    · simp [clock_rate, asNanNum, mulNan, h, hm1]
    · by_cases hm2 : dget store "acquisition_mode" = some (PyVal.str "KINETICS")
      · simp [clock_rate, asNanNum, mulNan, h, hm1, hm2]
      · simp [clock_rate, asNanNum, h, hm1, hm2]
  · intro h1 h2
    cases h0 : dget store "exposure_time" with
    | none => simp [clock_rate, mulNan, asNanNum, h1, h2, h0]
    | some w => cases w <;> simp [clock_rate, mulNan, asNanNum, h1, h2, h0]

theorem clock_rate_formula_witness :
    clock_rate ⟨devBase,
      [("acquisition_mode", PyVal.str "SINGLE_SCAN"),
       ("exposure_time", PyVal.rat (1/2))]⟩ = some 2 ∧
    clock_rate ⟨devBase,
      [("acquisition_mode", PyVal.str "ACCUMULATE"),
       ("exposure_time", PyVal.rat (1/2)),
       ("number_of_accumulations", PyVal.int 4)]⟩ = some (1/2) ∧
    clock_rate ⟨devBase, [("acquisition_mode", PyVal.str "SINGLE_SCAN"),
       ("exposure_time", PyVal.rat 0)]⟩ = Option.none := by
  refine ⟨?_, ?_, ?_⟩
  · rw [(clock_rate_formula devBase
      [("acquisition_mode", PyVal.str "SINGLE_SCAN"), ("exposure_time", PyVal.rat (1/2))]
      (1/2) 0 0).1 (by decide) (by decide) rfl]
    with_unfolding_all decide
  · rw [(clock_rate_formula devBase
      [("acquisition_mode", PyVal.str "ACCUMULATE"), ("exposure_time", PyVal.rat (1/2)),
        ("number_of_accumulations", PyVal.int 4)] (1/2) 4 0).2.1 rfl rfl rfl]
    with_unfolding_all decide
  · rw [(clock_rate_formula devBase
      [("acquisition_mode", PyVal.str "SINGLE_SCAN"), ("exposure_time", PyVal.rat 0)]
      0 0 0).1 (by decide) (by decide) rfl]
    with_unfolding_all decide

/-! ### C8: open re-applies the stored configuration -/

/-- C8: a successful `open()` on a non-empty Configuration Store immediately
re-applies the stored configuration through the reconciler with
`attempt_connection=False` (the resulting state and raise status are exactly
those of that `configure` call, and `open` returns `true`); a failed connect
makes `open()` return `false` without raising and leaves the store
untouched. -/
theorem open_reapplies_stored_configuration (σ : Ctrl) :
    ((devConnect σ.dev).is_open = false →
      openCtrl σ = ⟨{ σ with dev := devConnect σ.dev }, false, Option.none, [Ev.connect]⟩) ∧
    ((devConnect σ.dev).is_open = true → ¬ σ.last_config_dict = [] →
      (openCtrl σ).ret = true ∧
      (openCtrl σ).state =
        (configure { σ with dev := devConnect σ.dev } σ.last_config_dict false).state ∧
      (openCtrl σ).raised =
        (configure { σ with dev := devConnect σ.dev } σ.last_config_dict false).raised) := by
  constructor
  · intro h
    simp [openCtrl, h]
  · intro h hne
    have hc : configure { σ with dev := devConnect σ.dev } σ.last_config_dict false =
        configureCore { σ with dev := devConnect σ.dev } σ.last_config_dict :=
      configure_noattempt _ _ hne
    simp [openCtrl, h, hne, hc]

def sigma8w : Ctrl := ⟨devBase, storeBase⟩

theorem open_reapplies_stored_configuration_witness :
    (openCtrl sigma8w).ret = true ∧
    (openCtrl sigma8w).state =
      (configure { sigma8w with dev := devConnect sigma8w.dev }
        sigma8w.last_config_dict false).state ∧
    (openCtrl ⟨{ devBase with openWorks := false }, storeBase⟩).ret = false :=
  ⟨((open_reapplies_stored_configuration sigma8w).2 rfl (by decide)).1,
   ((open_reapplies_stored_configuration sigma8w).2 rfl (by decide)).2.1,
   by
    rw [(open_reapplies_stored_configuration
      ⟨{ devBase with openWorks := false }, storeBase⟩).1 rfl]⟩

/-! ### C3: strict write order, read-back strictly afterwards -/

/-- C3: any `configure` call that reaches the write phase (here on the direct
path: non-empty store, open device, no raised conversion error) issues all its
adapter writes first — a subsequence of the fixed field order — and only then
runs the full read-back pass; the two are never interleaved. -/
theorem configure_writes_in_order_then_reads_back (σ : Ctrl) (d : ConfigDict)
    (hne : ¬ σ.last_config_dict = [])
    (hopen : σ.dev.is_open = true)
    (hok : (writePhase (fillFromStore σ.last_config_dict d) σ.dev).2.2 = Option.none) :
    (configure σ d false).trace =
      (writePhase (fillFromStore σ.last_config_dict d) σ.dev).2.1 ++ readBackTrace ∧
    ((writePhase (fillFromStore σ.last_config_dict d) σ.dev).2.1).Sublist writeOrderFull ∧
    (∀ e ∈ (writePhase (fillFromStore σ.last_config_dict d) σ.dev).2.1, e.isWrite = true) ∧
    (∀ e ∈ readBackTrace, e.isRead = true) := by
  refine ⟨?_, (writePhase_trace _ _).1, (writePhase_trace _ _).2, by decide⟩
  rw [configure_noattempt σ d hne]
  simp [configureCore, hopen, hok]

theorem configure_writes_in_order_then_reads_back_witness :
    (configure ⟨devOpenBase, storeBase⟩ [("exposure_time", PyVal.rat 2)] false).trace =
      (writePhase (fillFromStore storeBase [("exposure_time", PyVal.rat 2)])
        devOpenBase).2.1 ++ readBackTrace ∧
    ((writePhase (fillFromStore storeBase [("exposure_time", PyVal.rat 2)])
        devOpenBase).2.1).Sublist writeOrderFull :=
  ⟨(configure_writes_in_order_then_reads_back ⟨devOpenBase, storeBase⟩
      [("exposure_time", PyVal.rat 2)] (by decide) rfl (by with_unfolding_all decide)).1,
   (configure_writes_in_order_then_reads_back ⟨devOpenBase, storeBase⟩
      [("exposure_time", PyVal.rat 2)] (by decide) rfl (by with_unfolding_all decide)).2.1⟩

/-! ### C9: compound-field tolerance and conversion errors -/

def sigma9 : Ctrl := ⟨devOpenBase, storeBase⟩

/-- C9 counterexample: a failing numeric text conversion during `configure`
raises the underlying generic `ValueError`, whose message does not name the
offending field (`vertical_shift_speed` does not occur in it); and a compound
field supplied as the empty string is not tolerated — it is parsed and the
parse raises. -/
theorem configure_conversion_error_is_generic :
    (configure sigma9 [("vertical_shift_speed", PyVal.str "abc")] false).raised =
      some (PyExn.valueError "could not convert string to float: abc") ∧
    containsSeq ("could not convert string to float: abc".data)
      ("vertical_shift_speed".data) = false ∧
    (configure sigma9 [("horizontal_shift_speed", PyVal.str "")] false).raised =
      some (PyExn.valueError "invalid literal for int() with base 10: ") := by
  refine ⟨by with_unfolding_all decide, by decide, by with_unfolding_all decide⟩

/-- C9 (amended): a compound horizontal-shift-speed supplied as `None` is
tolerated with no parse attempt and no device write (the device keeps its
value); a numeric field supplied as unconvertible text raises the generic
conversion `ValueError` built only from the offending value, not an error
naming the field. -/
theorem configure_compound_none_tolerated_and_generic_error :
    (∀ (d : ConfigDict) (dev : Dev), dget d "horizontal_shift_speed" = some PyVal.none →
      Ev.w "ad_channel" ∉ (writePhase d dev).2.1 ∧
      Ev.w "output_amplifier" ∉ (writePhase d dev).2.1 ∧
      Ev.w "horizontal_shift_speed" ∉ (writePhase d dev).2.1) ∧
    (∀ dev : Dev, aHss PyVal.none dev = (dev, [], Option.none)) ∧
    (∀ (s : String) (dev : Dev), parseFloatStr s = Option.none →
      aVss (PyVal.str s) dev =
        (dev, [], some (PyExn.valueError ("could not convert string to float: " ++ s)))) := by
  refine ⟨?_, fun dev => rfl, ?_⟩
  · intro d dev h
    have hsubset := (writePhase_no_hss_writes d dev h).subset
    refine ⟨fun hm => ?_, fun hm => ?_, fun hm => ?_⟩
    · have hx := hsubset hm
      revert hx
      decide
    · have hx := hsubset hm
      revert hx
      decide
    · have hx := hsubset hm
      revert hx
      decide
  · intro s dev h
    simp [aVss, h]

theorem configure_compound_none_tolerated_and_generic_error_witness :
    Ev.w "ad_channel" ∉
      (writePhase (dset storeBase "horizontal_shift_speed" PyVal.none) devOpenBase).2.1 ∧
    aVss (PyVal.str "abc") devOpenBase =
      (devOpenBase, [],
        some (PyExn.valueError ("could not convert string to float: " ++ "abc"))) :=
  ⟨(configure_compound_none_tolerated_and_generic_error.1
      (dset storeBase "horizontal_shift_speed" PyVal.none) devOpenBase (by decide)).1,
   configure_compound_none_tolerated_and_generic_error.2.2 "abc" devOpenBase (by decide)⟩

/-! ### C10: in-place mutation of the caller's dictionary; open passes a copy -/

/-- C10: `configure` mutates the caller-supplied dictionary in place — the
final content of the caller's object is exactly the store-filled dictionary,
so every store key absent from (or `None` in) the input now carries the store
value; and the store that `open()` ends with is determined solely by the
read-back of the device after re-applying the (copied) stored configuration,
unaffected by that fill-phase mutation. -/
theorem configure_mutates_input_and_open_passes_copy (σ : Ctrl) (d : ConfigDict) :
    (¬ σ.last_config_dict = [] → σ.dev.is_open = true →
      (configure σ d false).cfg = fillFromStore σ.last_config_dict d) ∧
    (¬ σ.last_config_dict = [] → σ.dev.is_open = true →
      (σ.last_config_dict.map Prod.fst).Nodup →
      ∀ k, k ∈ σ.last_config_dict.map Prod.fst → pyIsNone (dget d k) = true →
        dget (configure σ d false).cfg k = dget σ.last_config_dict k) ∧
    ((devConnect σ.dev).is_open = true → ¬ σ.last_config_dict = [] →
      (writePhase (fillFromStore σ.last_config_dict σ.last_config_dict)
        (devConnect σ.dev)).2.2 = Option.none →
      (openCtrl σ).state.last_config_dict =
        update_config_dict_from_current_values σ.last_config_dict
          (writePhase (fillFromStore σ.last_config_dict σ.last_config_dict)
            (devConnect σ.dev)).1) := by
  have hcfg : ¬ σ.last_config_dict = [] → σ.dev.is_open = true →
      (configure σ d false).cfg = fillFromStore σ.last_config_dict d := by
    intro hne hopen
    rw [configure_noattempt σ d hne]
    cases hw : (writePhase (fillFromStore σ.last_config_dict d) σ.dev).2.2 with
    | some e => simp [configureCore, hopen, hw]
    | none => simp [configureCore, hopen, hw]
  refine ⟨hcfg, ?_, ?_⟩
  · intro hne hopen hnd kk hmem hnone
    rw [hcfg hne hopen]
    exact dget_fill_none_mem _ _ _ hnd hmem hnone
  · intro h hne hwnone
    simp [openCtrl, h, hne, configureCore, hwnone]

theorem configure_mutates_input_and_open_passes_copy_witness :
    (configure ⟨devOpenBase, storeBase⟩ [("exposure_time", PyVal.rat 2)] false).cfg =
      fillFromStore storeBase [("exposure_time", PyVal.rat 2)] ∧
    dget (configure ⟨devOpenBase, storeBase⟩ [("exposure_time", PyVal.rat 2)] false).cfg
      "cooler" = dget storeBase "cooler" ∧
    (openCtrl ⟨devBase, storeBase⟩).state.last_config_dict =
      update_config_dict_from_current_values storeBase
        (writePhase (fillFromStore storeBase storeBase) (devConnect devBase)).1 :=
  ⟨(configure_mutates_input_and_open_passes_copy ⟨devOpenBase, storeBase⟩
      [("exposure_time", PyVal.rat 2)]).1 (by decide) rfl,
   (configure_mutates_input_and_open_passes_copy ⟨devOpenBase, storeBase⟩
      [("exposure_time", PyVal.rat 2)]).2.1 (by decide) rfl (by decide) "cooler"
      (by decide) (by decide),
   (configure_mutates_input_and_open_passes_copy ⟨devBase, storeBase⟩ []).2.2
      (by decide) (by decide) (by with_unfolding_all decide)⟩

/-! ### C4: omission means keep-current -/

/-- C4: on a consistent state (the store is the device's read-back and
re-applying the store to the device is a no-op, as every successful
reconciliation leaves things), a `configure` diff naming only
`exposure_time` fills every other field from the Configuration Store before
the device writes, and the resulting store differs from the previous one in
`exposure_time` alone — all other fields' resulting values are unchanged. -/
theorem configure_partial_diff_keeps_other_fields (σ : Ctrl) (v : PyVal)
    (hnd : (σ.last_config_dict.map Prod.fst).Nodup)
    (hne : ¬ σ.last_config_dict = [])
    (hopen : σ.dev.is_open = true)
    (hv : ¬ v = PyVal.none)
    (hrb : update_config_dict_from_current_values σ.last_config_dict σ.dev =
      σ.last_config_dict)
    (hwp1 : (writePhase σ.last_config_dict σ.dev).1 = σ.dev)
    (hok : (writePhase σ.last_config_dict σ.dev).2.2 = Option.none) :
    (configure σ [("exposure_time", v)] false).raised = Option.none ∧
    dget (configure σ [("exposure_time", v)] false).state.last_config_dict
      "exposure_time" = some v ∧
    (∀ k, ¬ k = "exposure_time" →
      dget (configure σ [("exposure_time", v)] false).state.last_config_dict k =
        dget σ.last_config_dict k) ∧
    (∀ k, k ∈ σ.last_config_dict.map Prod.fst → ¬ k = "exposure_time" →
      dget (fillFromStore σ.last_config_dict [("exposure_time", v)]) k =
        dget σ.last_config_dict k) := by
  have hvnone : pyIsNone (some v) = false := by
    cases v with
    | none => exact absurd rfl hv
    | bool b => rfl
    | int n => rfl
    | rat q => rfl
    | str s => rfl
  have hd0 : dget [("exposure_time", v)] "exposure_time" = some v := by
    simp [dget]
  have hd1exp : dget (fillFromStore σ.last_config_dict [("exposure_time", v)])
      "exposure_time" = some v := by
    rw [dget_fill_not_none _ _ _ (by rw [hd0]; exact hvnone), hd0]
  have hagree : ∀ k, ¬ k = "exposure_time" →
      dget (fillFromStore σ.last_config_dict [("exposure_time", v)]) k =
        dget σ.last_config_dict k := by
    intro k hk
    have hdk0 : dget [("exposure_time", v)] k = Option.none := by
      have hne2 : ¬ ("exposure_time" : String) = k := fun h => hk h.symm
      simp [dget, hne2]
    by_cases hm : k ∈ σ.last_config_dict.map Prod.fst
    · have hdk : pyIsNone (dget [("exposure_time", v)] k) = true := by
        rw [hdk0]
        rfl
      exact dget_fill_none_mem _ _ _ hnd hm hdk
    · rw [dget_fill_not_mem _ _ _ hm, dget_not_mem _ _ hm, hdk0]
  have hov := writePhase_override σ.last_config_dict
    (fillFromStore σ.last_config_dict [("exposure_time", v)]) σ.dev v hagree hd1exp hok
  have hw1 : (writePhase (fillFromStore σ.last_config_dict [("exposure_time", v)])
      σ.dev).1 = { σ.dev with exposure_time := v } := by
    rw [hov, hwp1]
  have hw22 : (writePhase (fillFromStore σ.last_config_dict [("exposure_time", v)])
      σ.dev).2.2 = Option.none := by
    rw [hov]
  have hcore_store : (configureCore σ [("exposure_time", v)]).state.last_config_dict =
      update_config_dict_from_current_values σ.last_config_dict
        { σ.dev with exposure_time := v } := by
    simp [configureCore, hopen, hw22, hw1]
  have hcore_raised : (configureCore σ [("exposure_time", v)]).raised = Option.none := by
    simp [configureCore, hopen, hw22]
  rw [configure_noattempt σ _ hne]
  refine ⟨hcore_raised, ?_, ?_, fun k hm hk => hagree k hk⟩
  · rw [hcore_store, dget_readback_exposure]
  · intro k hk
    rw [hcore_store, dget_readback_override _ _ _ _ hk, hrb]

theorem configure_partial_diff_keeps_other_fields_witness :
    dget (configure ⟨devOpenBase, storeBase⟩ [("exposure_time", PyVal.rat 2)]
      false).state.last_config_dict "exposure_time" = some (PyVal.rat 2) ∧
    dget (configure ⟨devOpenBase, storeBase⟩ [("exposure_time", PyVal.rat 2)]
      false).state.last_config_dict "cooler" = dget storeBase "cooler" :=
  ⟨(configure_partial_diff_keeps_other_fields ⟨devOpenBase, storeBase⟩ (PyVal.rat 2)
      (by decide) (by decide) rfl (by decide) (by with_unfolding_all decide)
      (by with_unfolding_all decide) (by with_unfolding_all decide)).2.1,
   (configure_partial_diff_keeps_other_fields ⟨devOpenBase, storeBase⟩ (PyVal.rat 2)
      (by decide) (by decide) rfl (by decide) (by with_unfolding_all decide)
      (by with_unfolding_all decide) (by with_unfolding_all decide)).2.2.1 "cooler"
      (by decide)⟩

end AndorSpectrometer
